import Mathlib

/-!
# Verification of `suspension_designer`

A shallow embedding of the core of the `suspension_designer` repository:

* `src/suspension_designer/geometry.py` — lines, planes, the Rodrigues
  vector-alignment rotation and the skew-symmetric cross-product matrix;
* `src/Python/DoubleWishbone.py` (`Init`, `Design`) together with the
  orchestration in `src/Python/KinematicSystem.py` — the double-wishbone
  frame graph, the bounds/sampling model and the design generator.

Conventions used throughout this development:

* Machine floating-point numbers are modelled by exact rationals `ℚ`.  All
  arithmetic performed by the source on the inputs appearing in theorems is
  exact, so the rational model coincides with the `float64` computation on
  the concrete inputs used in counterexamples (their margins are large).
* A Python function that can `raise` is embedded with an `Option`/flag
  codomain; `none` (resp. the flag `true`) is produced exactly at the
  program points where the source raises.
* The two transcendental evaluations in `DoubleWishbone.Design`
  (`np.sin(np.pi/2 - camber)` and `np.arctan(abs(gain))`) are abstracted as
  function parameters of the design transformer; no claim below depends on
  their values, only on where their results are stored.
-/

/-! ## Geometry primitives (`geometry.py`) -/

/-- Points and vectors of `ℝ³`, as in the `numpy` arrays of `geometry.py`. -/
def Vec3 : Type := Fin 3 → ℚ

instance : DecidableEq Vec3 := by unfold Vec3; infer_instance

/-- `np.dot` on 3-vectors. -/
def dot3 (a b : Vec3) : ℚ := a 0 * b 0 + a 1 * b 1 + a 2 * b 2

/-- `np.cross` on 3-vectors. -/
def cross3 (a b : Vec3) : Vec3 :=
  ![a 1 * b 2 - a 2 * b 1, a 2 * b 0 - a 0 * b 2, a 0 * b 1 - a 1 * b 0]

/-- Pointwise difference of two points. -/
def sub3 (a b : Vec3) : Vec3 := fun i => a i - b i

/-- `lerp(point_A, point_B, alpha) = point_A*(1-alpha) + point_B*alpha`
(`geometry.py`, `lerp`). -/
def lerp (point_A point_B : Vec3) (alpha : ℚ) : Vec3 :=
  fun i => point_A i * (1 - alpha) + point_B i * alpha

/-- `Line.__call__(query, index)` (`geometry.py`, lines 57-71): computes
`alpha = (query - point[0][index]) / (point[1][index] - point[0][index])` and
returns `lerp(point[0], point[1], alpha)`.  The `Option` codomain is this
development's convention for fallible Python code: `none` would mark a
`raise`.  The body of `__call__` contains no check and no `raise` — when the
denominator is zero `numpy` emits a warning and yields a non-finite array
which is returned normally — so the embedding is unconditionally `some`.
(Total rational division, with `q / 0 = 0`, stands in for the unguarded
float division; whenever the denominator is nonzero it is the exact
quotient.) -/
def lineCall (point_A point_B : Vec3) (query : ℚ) (index : Fin 3) : Option Vec3 :=
  some (lerp point_A point_B
    ((query - point_A index) / (point_B index - point_A index)))

/-- A `Plane` as constructed from three points (`geometry.py`, lines 107-119). -/
structure PlaneQ where
  point_A : Vec3
  point_B : Vec3
  point_C : Vec3

/-- The implicit coefficients `(n, d)` of the plane through the three points:
`n = (B - A) × (C - A)` and `d = -n · A`, so a point `p` lies on the plane
iff `n · p + d = 0`.  `scipy`'s `sla.null_space` of the homogeneous 3×4
system returns exactly this 4-vector scaled to unit Euclidean norm (with an
arbitrary sign).  The routines below that consume `null_space` are modelled
with scaling-corrected comparisons, so that they agree with the source
acting on the unit-scaled coefficients: linear solves are invariant under
row scaling, and magnitude comparisons are performed on the normalised
values. -/
def nullSpace4 (P : PlaneQ) : Vec3 × ℚ :=
  let n := cross3 (sub3 P.point_B P.point_A) (sub3 P.point_C P.point_A)
  (n, -dot3 n P.point_A)

/-- The residual of the plane's implicit equation at a point: zero iff the
point lies on the plane. -/
def planeEval (P : PlaneQ) (p : Vec3) : ℚ :=
  dot3 (nullSpace4 P).1 p + (nullSpace4 P).2

/-- `if b.1 < a.1 then b else a`: one step of `np.argmin`, which keeps the
earlier entry on ties (strict improvement required). -/
def amin2 (a b : ℚ × Fin 3) : ℚ × Fin 3 := if b.1 < a.1 then b else a

/-- The column index `j` selected by `Plane.intersection` (`geometry.py`,
line 157): `np.unravel_index(np.argmin(np.abs(A[:,:3])), ...)[1]`, the column
of the smallest-magnitude entry among the two planes' first three
(unit-scale) coefficients, scanning in C (row-major) order.  The source
compares `|n_ic| / ‖(n_i, d_i)‖`; we compare the squares cross-multiplied by
the squared norms, which is an exact, order-preserving encoding of the same
comparison. -/
def argminColumn (n1 : Vec3) (d1 : ℚ) (n2 : Vec3) (d2 : ℚ) : Fin 3 :=
  let S1 := dot3 n1 n1 + d1 ^ 2
  let S2 := dot3 n2 n2 + d2 ^ 2
  (amin2 (amin2 (amin2 (amin2 (amin2
      ((n1 0) ^ 2 * S2, 0) ((n1 1) ^ 2 * S2, 1)) ((n1 2) ^ 2 * S2, 2))
      ((n2 0) ^ 2 * S1, 0)) ((n2 1) ^ 2 * S1, 1)) ((n2 2) ^ 2 * S1, 2)).2

/-- `Plane.intersection(other)` (`geometry.py`, lines 147-166).  Builds the
2×4 system from both planes' implicit coefficients, picks the column `j` of
the smallest-magnitude coefficient, drops it to get the 2×2 system `Ar`,
and solves `Ar x = -b0` and `Ar x = -b1` with `b0 = A[:,-1]` and
`b1 = A[:,-1] + A[:,j]`.  `np.linalg.solve` raises `LinAlgError` on a
singular system, modelled by `none`.  The two solutions are then passed to
`np.insert(·, 0, 0)` and `np.insert(·, 0, 1)` — the eliminated coordinate is
inserted at position `0`, NOT at position `j`; the embedding reproduces
this literally.  The returned pair is `Line.point`, the two defining points
of the returned `Line`. -/
def planeIntersection (P1 P2 : PlaneQ) : Option (Vec3 × Vec3) :=
  let v1 := nullSpace4 P1
  let v2 := nullSpace4 P2
  let j := argminColumn v1.1 v1.2 v2.1 v2.2
  let c0 : Fin 3 := if j = 0 then 1 else 0
  let c1 : Fin 3 := if j = 2 then 1 else 2
  let a := v1.1 c0; let b := v1.1 c1
  let c := v2.1 c0; let d := v2.1 c1
  let det := a * d - b * c
  if det = 0 then none
  else
    let r0 := -v1.2; let r1 := -v2.2
    let xA0 := (r0 * d - b * r1) / det
    let xA1 := (a * r1 - c * r0) / det
    let s0 := -(v1.2 + v1.1 j); let s1 := -(v2.2 + v2.1 j)
    let xB0 := (s0 * d - b * s1) / det
    let xB1 := (a * s1 - c * s0) / det
    some (![0, xA0, xA1], ![1, xB0, xB1])

/-- `Plane.perp(point)` (`geometry.py`, lines 179-188):
`self.point[0] + np.dot(point - self.point[0], self.n) * self.n`.  The
method reads only the fields `self.point[0]` and the unit normal `self.n`,
which we pass explicitly (the normal `scipy` stores is the first three
null-space components rescaled to unit norm; it is rational exactly when
the cross product of the defining points' differences has rational norm,
as in the concrete instances below, and both formulas are invariant under
the sign ambiguity `n ↦ -n`). -/
def planePerp (point0 n point : Vec3) : Vec3 :=
  fun i => point0 i + dot3 (sub3 point point0) n * n i

/-- `Plane.proj(point)` (`geometry.py`, lines 168-177):
`point - self.perp(point)`. -/
def planeProj (point0 n point : Vec3) : Vec3 :=
  sub3 point (planePerp point0 n point)

/-- `skew_symmetric_matrix(v)` (`geometry.py`, lines 382-394). -/
def skew_symmetric_matrix (v : Vec3) : Matrix (Fin 3) (Fin 3) ℚ :=
  !![0, -v 2, v 1; v 2, 0, -v 0; -v 1, v 0, 0]

/-- `vector_alignment_rotation(v_A, v_B)` (`geometry.py`, lines 361-379):
`v = np.cross(v_A, v_B)`, `c = np.dot(v_A, v_B)`, and the constructed
matrix `R = I + [v]ₓ + [v]ₓ² / (1 + c)`.  There is no special case of any
kind in the source: when `1 + c = 0` the division is by zero (`numpy`
produces non-finite entries and the subsequent
`scipy.spatial.transform.Rotation.from_matrix` raises).  We model the
constructed matrix itself; for exactly-orthogonal `R` (the unit-vector
case) `from_matrix(R).apply` is multiplication by `R`. -/
def vector_alignment_rotation (v_A v_B : Vec3) : Matrix (Fin 3) (Fin 3) ℚ :=
  let v := cross3 v_A v_B
  let c := dot3 v_A v_B
  let v_skew := skew_symmetric_matrix v
  1 + v_skew + (1 / (1 + c)) • (v_skew * v_skew)

/-! ## The double-wishbone design generator (`DoubleWishbone.py`, `KinematicSystem.py`)

`Design` mutates a `networkx` graph of frames in place.  The state it reads
and writes is embedded as an explicit record: the mutable components of the
frames `T` (tire), `W` (wheel), `B` (body), `X` (axle), the `RC` point of
interest of the intermediate frame, the eight hardpoint positions resolved
by the design-space sampling loop, and the `Target`/`Bound`/`Sample`
dictionaries.  The fixed-length `numpy` arrays `Position`/`Rotation`
(shape `(3,1)`) and the 3×2 bound matrices are embedded as records with
one named field per slot (`x`/`y`/`z` for indices `0`/`1`/`2`). -/

/-- A 3-slot `numpy` column vector; fields `x`, `y`, `z` are indices
`0`, `1`, `2`. -/
structure V3 where
  x : ℚ
  y : ℚ
  z : ℚ

attribute [ext] V3

/-- Read a `V3` by numeric index, `v[i]`. -/
def V3.get (v : V3) (i : Fin 3) : ℚ :=
  match i with
  | 0 => v.x
  | 1 => v.y
  | 2 => v.z

/-- A 3×2 bound matrix: one `(min, max)` row per axis. -/
structure B3 where
  x : ℚ × ℚ
  y : ℚ × ℚ
  z : ℚ × ℚ

attribute [ext] B3

/-- Read a `B3` row by numeric index, `Bound[P][i]`. -/
def B3.get (b : B3) (i : Fin 3) : ℚ × ℚ :=
  match i with
  | 0 => b.x
  | 1 => b.y
  | 2 => b.z

/-- The eight hardpoints of the sampling loop of `Design` (lines 185-221),
in its iteration order `['LAF','LAR','UAF','UAR','TA','LB','UB','TB']`. -/
inductive HP | laf | lar | uaf | uar | ta | lb | ub | tb
deriving DecidableEq

/-- A dictionary keyed by the eight hardpoint names. -/
structure HPMap (α : Type) where
  laf : α
  lar : α
  uaf : α
  uar : α
  ta : α
  lb : α
  ub : α
  tb : α

attribute [ext] HPMap

/-- Dictionary lookup by hardpoint name. -/
def HPMap.get {α : Type} (m : HPMap α) (P : HP) : α :=
  match P with
  | HP.laf => m.laf
  | HP.lar => m.lar
  | HP.uaf => m.uaf
  | HP.uar => m.uar
  | HP.ta => m.ta
  | HP.lb => m.lb
  | HP.ub => m.ub
  | HP.tb => m.tb

/-- The value stored at `Target['Vehicle']['CG']`.  `Design` subscripts it
(`CG[2]`, lines 176 and 181-182), which requires an array, but also
multiplies the whole entry into a single position slot (line 231), which
requires a scalar; the repository's only driver (`BaseTesting.py`, line 20)
supplies the scalar `8.50*25.4`.  Both possibilities are represented. -/
inductive CGVal
  | scalar (val : ℚ)
  | vec (v : V3)

/-- The entries of the `Target` dictionary read or written by
`DoubleWishbone.Design`.  Entries `Design` never touches are omitted (they
are trivially preserved).  `fvsa` models `Target['Linkage']['FVSA']`, a key
absent from the driver's dictionary until `Design` assigns it (line 226);
`none` marks the absent key. -/
structure TargetQ where
  axle : String
  wheelbase : ℚ
  weightDist0 : ℚ
  track : ℚ
  camber : ℚ
  toe : ℚ
  loadedRadius : ℚ
  caster : ℚ
  cg : CGVal
  rake : ℚ
  ride : ℚ
  camberGain : ℚ
  rollCenter : ℚ
  fvsa : Option ℚ

attribute [ext] TargetQ

/-- The mutable state of the kinematic system seen by `Design`: per-frame
position/rotation components, the resolved hardpoint (point-of-interest)
positions keyed by hardpoint name (the owning frame — `X` for inboard and
`W` for outboard points — is determined by the name, lines 186-189), the
roll-center position, and the three configuration dictionaries. -/
structure DWState where
  target : TargetQ
  bound : HPMap B3
  sample : HPMap V3
  tirePos : V3
  tireRot : V3
  wheelPos : V3
  wheelRot : V3
  bodyPos : V3
  bodyRot : V3
  axlePos : V3
  poi : HPMap V3
  rcPos : V3

attribute [ext] DWState

/-- The position-resolution formula of the sampling loop (lines 191-192):
`Bound[P][:,0] + Sample[P] * np.diff(Bound[P])`, i.e. per axis
`min + sample * (max - min)`. -/
def resolvePoI (b : B3) (sm : V3) : V3 :=
  { x := b.x.1 + sm.x * (b.x.2 - b.x.1),
    y := b.y.1 + sm.y * (b.y.2 - b.y.1),
    z := b.z.1 + sm.z * (b.z.2 - b.z.1) }

/-- The bound-restriction step of `Init` (lines 139-142): every sample entry
whose bound row has zero width (`np.diff(Bound[P]) == 0`) is forced to `0`. -/
def initSampleMask (b : B3) (sm : V3) : V3 :=
  { x := if b.x.2 - b.x.1 = 0 then 0 else sm.x,
    y := if b.y.2 - b.y.1 = 0 then 0 else sm.y,
    z := if b.z.2 - b.z.1 = 0 then 0 else sm.z }

/-- The tire frame's longitudinal position (lines 154-159):
`Wheelbase * (1 - WeightDist[0]/100)` for a front axle and
`Wheelbase * -WeightDist[0]/100` for a rear axle.  `WeightDist[0]` is the
front weight percentage in both branches (`BaseTesting.py` line 18 declares
`WeightDist` as `[%F,%L]`).  Only meaningful when the axle label is
`"Front"` or `"Rear"`; `Design` raises otherwise before reaching here. -/
def tirePos0 (t : TargetQ) : ℚ :=
  if t.axle = "Front" then t.wheelbase * (1 - t.weightDist0 / 100)
  else t.wheelbase * (-t.weightDist0) / 100

/-- Tire- and wheel-frame writes of `Design` (lines 154-173), executed right
after the axle label is recognised: `T.Position[0]` (per `tirePos0`),
`T.Position[1] = Track/2`, `T.Rotation[0] = -Camber`, `T.Rotation[2] = Toe`,
`W.Position[2] = LoadedRadius / sin(π/2 - Camber)`,
`W.Rotation[1] = -Caster`.  `sinEval` abstracts the float evaluation
`camber ↦ np.sin(np.pi/2 - camber)`. -/
def framesStage (sinEval : ℚ → ℚ) (s : DWState) : DWState :=
  { s with
    tirePos := { s.tirePos with x := tirePos0 s.target, y := s.target.track / 2 },
    tireRot := { s.tireRot with x := -s.target.camber, z := s.target.toe },
    wheelPos := { s.wheelPos with z := s.target.loadedRadius / sinEval s.target.camber },
    wheelRot := { s.wheelRot with y := -s.target.caster } }

/-- Body- and axle-frame writes of `Design` (lines 176-182), reached only
when `Target['Vehicle']['CG']` is subscriptable (`CG[2]`), i.e. an array
`c`: `B.Position[2] = CG[2]`, `B.Rotation[1] = Rake`,
`X.Position[0] = T.Position[0]` (the already-updated tire value),
`X.Position[2] = Ride - CG[2]`. -/
def bodyAxleStage (c : V3) (s : DWState) : DWState :=
  { s with
    bodyPos := { s.bodyPos with z := c.z },
    bodyRot := { s.bodyRot with y := s.target.rake },
    axlePos := { s.axlePos with x := s.tirePos.x, z := s.target.ride - c.z } }

/-- Loop iteration `P = 'LAF'` of the sampling loop (lines 191-192). -/
def resolveLAF (s : DWState) : DWState :=
  { s with poi := { s.poi with laf := resolvePoI s.bound.laf s.sample.laf } }

/-- Loop iteration `P = 'LAR'`, resolution part (lines 191-192). -/
def resolveLAR (s : DWState) : DWState :=
  { s with poi := { s.poi with lar := resolvePoI s.bound.lar s.sample.lar } }

/-- Bound-inheritance conditional of iteration `P = 'LAR'` (lines 194-200):
if `LAR`'s lateral bound row is entirely zero, overwrite the lateral
component of its freshly resolved position with `LAF`'s resolved value and
copy `LAF`'s lateral bound row in place of the zero row (position first,
then bound, both reading the pre-conditional state, as in the source). -/
def inheritLAR (s : DWState) : DWState :=
  if s.bound.lar.y = (0, 0) then
    { s with poi := { s.poi with lar := { s.poi.lar with y := s.poi.laf.y } },
             bound := { s.bound with lar := { s.bound.lar with y := s.bound.laf.y } } }
  else s

/-- Loop iteration `P = 'UAF'`, resolution part. -/
def resolveUAF (s : DWState) : DWState :=
  { s with poi := { s.poi with uaf := resolvePoI s.bound.uaf s.sample.uaf } }

/-- Bound-inheritance conditional of iteration `P = 'UAF'` (lines 201-207):
longitudinal row inherited from `LAF`. -/
def inheritUAF (s : DWState) : DWState :=
  if s.bound.uaf.x = (0, 0) then
    { s with poi := { s.poi with uaf := { s.poi.uaf with x := s.poi.laf.x } },
             bound := { s.bound with uaf := { s.bound.uaf with x := s.bound.laf.x } } }
  else s

/-- Loop iteration `P = 'UAR'`, resolution part. -/
def resolveUAR (s : DWState) : DWState :=
  { s with poi := { s.poi with uar := resolvePoI s.bound.uar s.sample.uar } }

/-- First bound-inheritance conditional of iteration `P = 'UAR'`
(lines 208-214): longitudinal row inherited from `LAR`. -/
def inheritUARlong (s : DWState) : DWState :=
  if s.bound.uar.x = (0, 0) then
    { s with poi := { s.poi with uar := { s.poi.uar with x := s.poi.lar.x } },
             bound := { s.bound with uar := { s.bound.uar with x := s.bound.lar.x } } }
  else s

/-- Second bound-inheritance conditional of iteration `P = 'UAR'`
(lines 216-221): lateral row inherited from `UAF`. -/
def inheritUARlat (s : DWState) : DWState :=
  if s.bound.uar.y = (0, 0) then
    { s with poi := { s.poi with uar := { s.poi.uar with y := s.poi.uaf.y } },
             bound := { s.bound with uar := { s.bound.uar with y := s.bound.uaf.y } } }
  else s

/-- Loop iteration `P = 'TA'`. -/
def resolveTA (s : DWState) : DWState :=
  { s with poi := { s.poi with ta := resolvePoI s.bound.ta s.sample.ta } }

/-- Loop iteration `P = 'LB'`. -/
def resolveLB (s : DWState) : DWState :=
  { s with poi := { s.poi with lb := resolvePoI s.bound.lb s.sample.lb } }

/-- Loop iteration `P = 'UB'`. -/
def resolveUB (s : DWState) : DWState :=
  { s with poi := { s.poi with ub := resolvePoI s.bound.ub s.sample.ub } }

/-- Loop iteration `P = 'TB'`. -/
def resolveTB (s : DWState) : DWState :=
  { s with poi := { s.poi with tb := resolvePoI s.bound.tb s.sample.tb } }

/-- The design-space sampling loop of `Design` (lines 184-221), unrolled
over its fixed iteration order `['LAF','LAR','UAF','UAR','TA','LB','UB','TB']`,
with the bound-inheritance conditionals placed exactly where the source
places them. -/
def samplingStage (s : DWState) : DWState :=
  resolveTB (resolveUB (resolveLB (resolveTA
    (inheritUARlat (inheritUARlong (resolveUAR
      (inheritUAF (resolveUAF
        (inheritLAR (resolveLAR (resolveLAF s)))))))))))

/-- The kinematic-design-rules writes that complete before `Design` fails
(lines 226-230): `Target['Linkage']['FVSA'] = 1/np.arctan(np.abs(CamberGain))`
— a write into the `Target` dictionary — and the roll center's longitudinal
position, copied from the tire frame.  `arctanEval` abstracts the float
evaluation of `np.arctan`. -/
def rulesStage (arctanEval : ℚ → ℚ) (s : DWState) : DWState :=
  { s with
    target := { s.target with fvsa := some (1 / arctanEval |s.target.camberGain|) },
    rcPos := { s.rcPos with x := s.tirePos.x } }

/-- `DoubleWishbone.Design` (lines 147-236) as a state transformer.  The
`Bool` is the raise flag: `true` means the Python call raises, with the
returned state holding the in-place mutations performed up to that point.
Branches:

* an axle label other than `"Front"`/`"Rear"` raises immediately
  (lines 160-162, the spec's `InvalidConfiguration`);
* a scalar `CG` raises `TypeError` at `CG[2]` (line 176) after the tire and
  wheel writes;
* an array `CG` proceeds through the body/axle writes, the sampling loop
  and the first two kinematic-rules writes, then raises at lines 231-232,
  where `RC.Position[2] = Target['Vehicle']['CG'] * RollCenter/100` assigns
  the whole 3-entry `CG` array into the single roll-center height slot — a
  `numpy` broadcast `ValueError` (so `RC.Position[2]` is never written).

Consequently no run of `Design` returns normally. -/
def design (sinEval arctanEval : ℚ → ℚ) (s : DWState) : DWState × Bool :=
  if s.target.axle = "Front" ∨ s.target.axle = "Rear" then
    match (framesStage sinEval s).target.cg with
    | CGVal.scalar _ => (framesStage sinEval s, true)
    | CGVal.vec c =>
        (rulesStage arctanEval (samplingStage (bodyAxleStage c (framesStage sinEval s))), true)
  else (s, true)

/-- The four designated (hardpoint, axis) pairs that the bound-inheritance
rule of `Design` may rewrite: `(LAR, 1)`, `(UAF, 0)`, `(UAR, 0)`, `(UAR, 1)`. -/
def inhAxis (P : HP) (i : Fin 3) : Prop :=
  (P = HP.lar ∧ i = 1) ∨ (P = HP.uaf ∧ i = 0) ∨
  (P = HP.uar ∧ i = 0) ∨ (P = HP.uar ∧ i = 1)

instance (P : HP) (i : Fin 3) : Decidable (inhAxis P i) := by
  unfold inhAxis; infer_instance

/-- The state produced by a run of `Design` on a valid axle label, an array
`CG`, and bounds for which no inheritance conditional fires: every frame
write of lines 154-182, all eight hardpoints resolved by the sampling
formula, the `FVSA` write into `Target`, and the roll-center longitudinal
write — exactly the mutations performed before the raise at line 231. -/
def designResult (sinEval arctanEval : ℚ → ℚ) (c : V3) (s : DWState) : DWState :=
  { s with
    tirePos := { s.tirePos with x := tirePos0 s.target, y := s.target.track / 2 },
    tireRot := { s.tireRot with x := -s.target.camber, z := s.target.toe },
    wheelPos := { s.wheelPos with z := s.target.loadedRadius / sinEval s.target.camber },
    wheelRot := { s.wheelRot with y := -s.target.caster },
    bodyPos := { s.bodyPos with z := c.z },
    bodyRot := { s.bodyRot with y := s.target.rake },
    axlePos := { s.axlePos with x := tirePos0 s.target, z := s.target.ride - c.z },
    poi :=
      { laf := resolvePoI s.bound.laf s.sample.laf,
        lar := resolvePoI s.bound.lar s.sample.lar,
        uaf := resolvePoI s.bound.uaf s.sample.uaf,
        uar := resolvePoI s.bound.uar s.sample.uar,
        ta := resolvePoI s.bound.ta s.sample.ta,
        lb := resolvePoI s.bound.lb s.sample.lb,
        ub := resolvePoI s.bound.ub s.sample.ub,
        tb := resolvePoI s.bound.tb s.sample.tb },
    target := { s.target with fvsa := some (1 / arctanEval |s.target.camberGain|) },
    rcPos := { s.rcPos with x := tirePos0 s.target } }

lemma inheritLAR_of_ne {s : DWState} (h : s.bound.lar.y ≠ (0, 0)) :
    inheritLAR s = s := if_neg h

lemma inheritLAR_of_eq {s : DWState} (h : s.bound.lar.y = (0, 0)) :
    inheritLAR s =
      { s with poi := { s.poi with lar := { s.poi.lar with y := s.poi.laf.y } },
               bound := { s.bound with lar := { s.bound.lar with y := s.bound.laf.y } } } :=
  if_pos h

lemma inheritUAF_of_ne {s : DWState} (h : s.bound.uaf.x ≠ (0, 0)) :
    inheritUAF s = s := if_neg h

lemma inheritUAF_of_eq {s : DWState} (h : s.bound.uaf.x = (0, 0)) :
    inheritUAF s =
      { s with poi := { s.poi with uaf := { s.poi.uaf with x := s.poi.laf.x } },
               bound := { s.bound with uaf := { s.bound.uaf with x := s.bound.laf.x } } } :=
  if_pos h

lemma inheritUARlong_of_ne {s : DWState} (h : s.bound.uar.x ≠ (0, 0)) :
    inheritUARlong s = s := if_neg h

lemma inheritUARlong_of_eq {s : DWState} (h : s.bound.uar.x = (0, 0)) :
    inheritUARlong s =
      { s with poi := { s.poi with uar := { s.poi.uar with x := s.poi.lar.x } },
               bound := { s.bound with uar := { s.bound.uar with x := s.bound.lar.x } } } :=
  if_pos h

lemma inheritUARlat_of_ne {s : DWState} (h : s.bound.uar.y ≠ (0, 0)) :
    inheritUARlat s = s := if_neg h

lemma inheritUARlat_of_eq {s : DWState} (h : s.bound.uar.y = (0, 0)) :
    inheritUARlat s =
      { s with poi := { s.poi with uar := { s.poi.uar with y := s.poi.uaf.y } },
               bound := { s.bound with uar := { s.bound.uar with y := s.bound.uaf.y } } } :=
  if_pos h


/-! ### Concrete instances

Example targets, bounds and samples used to evaluate the embedded design
generator at concrete inputs.  Rational literals: `8.7 = 87/10`, the bound
values follow `BaseTesting.py`'s `Linkage` bounds where relevant. -/

/-- A stand-in for the abstracted trigonometric evaluations (their values
are irrelevant to every statement below). -/
def oracleOne : ℚ → ℚ := fun _ => 1

/-- A front-axle target: wheelbase 1525 mm and front weight percentage 50
(`BaseTesting.py` lines 17-18), array-valued `CG` with height 300. -/
def exTargetFront : TargetQ :=
  { axle := "Front", wheelbase := 1525, weightDist0 := 50, track := 1220,
    camber := 0, toe := 0, loadedRadius := 200, caster := 0,
    cg := CGVal.vec ⟨0, 0, 300⟩, rake := 0, ride := 50,
    camberGain := 1, rollCenter := 15, fvsa := none }

/-- A rear-axle target with an asymmetric weight distribution:
front 40 %, hence rear 60 %. -/
def exTargetRear : TargetQ :=
  { axle := "Rear", wheelbase := 1000, weightDist0 := 40, track := 1220,
    camber := 0, toe := 0, loadedRadius := 200, caster := 0,
    cg := CGVal.vec ⟨0, 0, 300⟩, rake := 0, ride := 50,
    camberGain := 1, rollCenter := 15, fvsa := none }

/-- Bounds with `LAR`'s lateral row left entirely zero (as in
`BaseTesting.py` line 87), so the bound-inheritance conditional for `LAR`
fires; `LAF`'s lateral row is `[8, 8.7]` (line 86).  All other
inheritance-designated rows are nonzero. -/
def exBoundInh : HPMap B3 :=
  { laf := ⟨(5, 5), (8, 87/10), (1/2, 3/2)⟩,
    lar := ⟨(-5, -5), (0, 0), (1/2, 3/2)⟩,
    uaf := ⟨(1, 2), (87/10, 10), (6, 8)⟩,
    uar := ⟨(1, 2), (3, 4), (6, 8)⟩,
    ta := ⟨(2, 3), (87/10, 87/10), (5/2, 11/4)⟩,
    lb := ⟨(0, 1), (-22/25, -22/25), (-13/4, -27/10)⟩,
    ub := ⟨(0, 1), (-7/4, -22/25), (3, 7/2)⟩,
    tb := ⟨(5/2, 57/20), (-5/4, -22/25), (-3/2, 1/2)⟩ }

/-- Bounds in which no inheritance-designated row is zero. -/
def exBoundFree : HPMap B3 :=
  { laf := ⟨(5, 5), (8, 87/10), (1/2, 3/2)⟩,
    lar := ⟨(-5, -5), (8, 87/10), (1/2, 3/2)⟩,
    uaf := ⟨(1, 2), (87/10, 10), (6, 8)⟩,
    uar := ⟨(1, 2), (3, 4), (6, 8)⟩,
    ta := ⟨(2, 3), (87/10, 87/10), (5/2, 11/4)⟩,
    lb := ⟨(0, 1), (-22/25, -22/25), (-13/4, -27/10)⟩,
    ub := ⟨(0, 1), (-7/4, -22/25), (3, 7/2)⟩,
    tb := ⟨(5/2, 57/20), (-5/4, -22/25), (-3/2, 1/2)⟩ }

/-- Normalised samples: `LAF` samples at `1` on its longitudinal and
lateral axes, every other entry `0`; all entries lie in `[0, 1]`. -/
def exSample : HPMap V3 :=
  { laf := ⟨1, 1, 0⟩, lar := ⟨0, 0, 0⟩, uaf := ⟨0, 0, 0⟩, uar := ⟨0, 0, 0⟩,
    ta := ⟨0, 0, 0⟩, lb := ⟨0, 0, 0⟩, ub := ⟨0, 0, 0⟩, tb := ⟨0, 0, 0⟩ }

/-- The all-zero initial frame state (frames start at
`np.zeros((3,1))`, `DoubleWishbone.Init`). -/
def zeroV3 : V3 := ⟨0, 0, 0⟩

/-- All points of interest at the origin, as after `Init`. -/
def exPoiZero : HPMap V3 :=
  { laf := zeroV3, lar := zeroV3, uaf := zeroV3, uar := zeroV3,
    ta := zeroV3, lb := zeroV3, ub := zeroV3, tb := zeroV3 }

/-- A kinematic-system state in which the `LAR` inheritance rule fires. -/
def sInherit : DWState :=
  { target := exTargetFront, bound := exBoundInh, sample := exSample,
    tirePos := zeroV3, tireRot := zeroV3, wheelPos := zeroV3,
    wheelRot := zeroV3, bodyPos := zeroV3, bodyRot := zeroV3,
    axlePos := zeroV3, poi := exPoiZero, rcPos := zeroV3 }

/-- A kinematic-system state in which no inheritance rule fires. -/
def sNoInherit : DWState :=
  { sInherit with bound := exBoundFree }

/-- A rear-axle kinematic-system state. -/
def sRear : DWState :=
  { sInherit with target := exTargetRear }

/-- The plane through `(0,0,0)`, `(1,2,0)`, `(0,1,3)`: implicit coefficients
`(6, -3, 1, 0)` (its null-space direction), squared 4-norm `46`. -/
def exPlaneA : PlaneQ := ⟨![0, 0, 0], ![1, 2, 0], ![0, 1, 3]⟩

/-- The plane through `(1,1,1)`, `(2,1,2)`, `(1,3,2)`: implicit coefficients
`(-2, -1, 2, 1)`, squared 4-norm `10`.  Against `exPlaneA`, the
smallest-magnitude normalised coefficient is `exPlaneA`'s third (`1/√46`),
so `Plane.intersection` eliminates the coordinate axis `j = 2`. -/
def exPlaneB : PlaneQ := ⟨![1, 1, 1], ![2, 1, 2], ![1, 3, 2]⟩

/-- The plane `x = 1`, through `(1,0,0)`, `(1,1,0)`, `(1,0,1)`.  Its
null-space normal `(B-A) × (C-A) = (1,0,0)` already has unit norm, so the
stored unit normal `self.n` is exactly `±(1,0,0)` (`proj`/`perp` are
invariant under the sign of `n`). -/
def exPlaneX1 : PlaneQ := ⟨![1, 0, 0], ![1, 1, 0], ![1, 0, 1]⟩


/-! ### Projection lemmas for the design stages

One lemma per (stage, state component): how each mutation step of `Design`
acts on each component of the state.  Components a step does not write are
preserved; the two components a bound-inheritance conditional may write are
characterised by an `if` on its guard. -/

@[simp] lemma V3_get_zero (v : V3) : v.get 0 = v.x := rfl
@[simp] lemma V3_get_one (v : V3) : v.get 1 = v.y := rfl
@[simp] lemma V3_get_two (v : V3) : v.get 2 = v.z := rfl
@[simp] lemma B3_get_zero (b : B3) : b.get 0 = b.x := rfl
@[simp] lemma B3_get_one (b : B3) : b.get 1 = b.y := rfl
@[simp] lemma B3_get_two (b : B3) : b.get 2 = b.z := rfl
@[simp] lemma HPMap_get_laf {a : Type} (m : HPMap a) : m.get HP.laf = m.laf := rfl
@[simp] lemma HPMap_get_lar {a : Type} (m : HPMap a) : m.get HP.lar = m.lar := rfl
@[simp] lemma HPMap_get_uaf {a : Type} (m : HPMap a) : m.get HP.uaf = m.uaf := rfl
@[simp] lemma HPMap_get_uar {a : Type} (m : HPMap a) : m.get HP.uar = m.uar := rfl
@[simp] lemma HPMap_get_ta {a : Type} (m : HPMap a) : m.get HP.ta = m.ta := rfl
@[simp] lemma HPMap_get_lb {a : Type} (m : HPMap a) : m.get HP.lb = m.lb := rfl
@[simp] lemma HPMap_get_ub {a : Type} (m : HPMap a) : m.get HP.ub = m.ub := rfl
@[simp] lemma HPMap_get_tb {a : Type} (m : HPMap a) : m.get HP.tb = m.tb := rfl

@[simp] lemma resolveLAF_target (s : DWState) :
    (resolveLAF s).target = s.target := rfl

@[simp] lemma resolveLAF_bound (s : DWState) :
    (resolveLAF s).bound = s.bound := rfl

@[simp] lemma resolveLAF_sample (s : DWState) :
    (resolveLAF s).sample = s.sample := rfl

@[simp] lemma resolveLAF_tirePos (s : DWState) :
    (resolveLAF s).tirePos = s.tirePos := rfl

@[simp] lemma resolveLAF_tireRot (s : DWState) :
    (resolveLAF s).tireRot = s.tireRot := rfl

@[simp] lemma resolveLAF_wheelPos (s : DWState) :
    (resolveLAF s).wheelPos = s.wheelPos := rfl

@[simp] lemma resolveLAF_wheelRot (s : DWState) :
    (resolveLAF s).wheelRot = s.wheelRot := rfl

@[simp] lemma resolveLAF_bodyPos (s : DWState) :
    (resolveLAF s).bodyPos = s.bodyPos := rfl

@[simp] lemma resolveLAF_bodyRot (s : DWState) :
    (resolveLAF s).bodyRot = s.bodyRot := rfl

@[simp] lemma resolveLAF_axlePos (s : DWState) :
    (resolveLAF s).axlePos = s.axlePos := rfl

@[simp] lemma resolveLAF_rcPos (s : DWState) :
    (resolveLAF s).rcPos = s.rcPos := rfl

@[simp] lemma resolveLAF_poi_laf (s : DWState) :
    (resolveLAF s).poi.laf = resolvePoI s.bound.laf s.sample.laf := rfl

@[simp] lemma resolveLAF_poi_lar (s : DWState) :
    (resolveLAF s).poi.lar = s.poi.lar := rfl

@[simp] lemma resolveLAF_poi_uaf (s : DWState) :
    (resolveLAF s).poi.uaf = s.poi.uaf := rfl

@[simp] lemma resolveLAF_poi_uar (s : DWState) :
    (resolveLAF s).poi.uar = s.poi.uar := rfl

@[simp] lemma resolveLAF_poi_ta (s : DWState) :
    (resolveLAF s).poi.ta = s.poi.ta := rfl

@[simp] lemma resolveLAF_poi_lb (s : DWState) :
    (resolveLAF s).poi.lb = s.poi.lb := rfl

@[simp] lemma resolveLAF_poi_ub (s : DWState) :
    (resolveLAF s).poi.ub = s.poi.ub := rfl

@[simp] lemma resolveLAF_poi_tb (s : DWState) :
    (resolveLAF s).poi.tb = s.poi.tb := rfl

@[simp] lemma resolveLAR_target (s : DWState) :
    (resolveLAR s).target = s.target := rfl

@[simp] lemma resolveLAR_bound (s : DWState) :
    (resolveLAR s).bound = s.bound := rfl

@[simp] lemma resolveLAR_sample (s : DWState) :
    (resolveLAR s).sample = s.sample := rfl

@[simp] lemma resolveLAR_tirePos (s : DWState) :
    (resolveLAR s).tirePos = s.tirePos := rfl

@[simp] lemma resolveLAR_tireRot (s : DWState) :
    (resolveLAR s).tireRot = s.tireRot := rfl

@[simp] lemma resolveLAR_wheelPos (s : DWState) :
    (resolveLAR s).wheelPos = s.wheelPos := rfl

@[simp] lemma resolveLAR_wheelRot (s : DWState) :
    (resolveLAR s).wheelRot = s.wheelRot := rfl

@[simp] lemma resolveLAR_bodyPos (s : DWState) :
    (resolveLAR s).bodyPos = s.bodyPos := rfl

@[simp] lemma resolveLAR_bodyRot (s : DWState) :
    (resolveLAR s).bodyRot = s.bodyRot := rfl

@[simp] lemma resolveLAR_axlePos (s : DWState) :
    (resolveLAR s).axlePos = s.axlePos := rfl

@[simp] lemma resolveLAR_rcPos (s : DWState) :
    (resolveLAR s).rcPos = s.rcPos := rfl

@[simp] lemma resolveLAR_poi_laf (s : DWState) :
    (resolveLAR s).poi.laf = s.poi.laf := rfl

@[simp] lemma resolveLAR_poi_lar (s : DWState) :
    (resolveLAR s).poi.lar = resolvePoI s.bound.lar s.sample.lar := rfl

@[simp] lemma resolveLAR_poi_uaf (s : DWState) :
    (resolveLAR s).poi.uaf = s.poi.uaf := rfl

@[simp] lemma resolveLAR_poi_uar (s : DWState) :
    (resolveLAR s).poi.uar = s.poi.uar := rfl

@[simp] lemma resolveLAR_poi_ta (s : DWState) :
    (resolveLAR s).poi.ta = s.poi.ta := rfl

@[simp] lemma resolveLAR_poi_lb (s : DWState) :
    (resolveLAR s).poi.lb = s.poi.lb := rfl

@[simp] lemma resolveLAR_poi_ub (s : DWState) :
    (resolveLAR s).poi.ub = s.poi.ub := rfl

@[simp] lemma resolveLAR_poi_tb (s : DWState) :
    (resolveLAR s).poi.tb = s.poi.tb := rfl

@[simp] lemma resolveUAF_target (s : DWState) :
    (resolveUAF s).target = s.target := rfl

@[simp] lemma resolveUAF_bound (s : DWState) :
    (resolveUAF s).bound = s.bound := rfl

@[simp] lemma resolveUAF_sample (s : DWState) :
    (resolveUAF s).sample = s.sample := rfl

@[simp] lemma resolveUAF_tirePos (s : DWState) :
    (resolveUAF s).tirePos = s.tirePos := rfl

@[simp] lemma resolveUAF_tireRot (s : DWState) :
    (resolveUAF s).tireRot = s.tireRot := rfl

@[simp] lemma resolveUAF_wheelPos (s : DWState) :
    (resolveUAF s).wheelPos = s.wheelPos := rfl

@[simp] lemma resolveUAF_wheelRot (s : DWState) :
    (resolveUAF s).wheelRot = s.wheelRot := rfl

@[simp] lemma resolveUAF_bodyPos (s : DWState) :
    (resolveUAF s).bodyPos = s.bodyPos := rfl

@[simp] lemma resolveUAF_bodyRot (s : DWState) :
    (resolveUAF s).bodyRot = s.bodyRot := rfl

@[simp] lemma resolveUAF_axlePos (s : DWState) :
    (resolveUAF s).axlePos = s.axlePos := rfl

@[simp] lemma resolveUAF_rcPos (s : DWState) :
    (resolveUAF s).rcPos = s.rcPos := rfl

@[simp] lemma resolveUAF_poi_laf (s : DWState) :
    (resolveUAF s).poi.laf = s.poi.laf := rfl

@[simp] lemma resolveUAF_poi_lar (s : DWState) :
    (resolveUAF s).poi.lar = s.poi.lar := rfl

@[simp] lemma resolveUAF_poi_uaf (s : DWState) :
    (resolveUAF s).poi.uaf = resolvePoI s.bound.uaf s.sample.uaf := rfl

@[simp] lemma resolveUAF_poi_uar (s : DWState) :
    (resolveUAF s).poi.uar = s.poi.uar := rfl

@[simp] lemma resolveUAF_poi_ta (s : DWState) :
    (resolveUAF s).poi.ta = s.poi.ta := rfl

@[simp] lemma resolveUAF_poi_lb (s : DWState) :
    (resolveUAF s).poi.lb = s.poi.lb := rfl

@[simp] lemma resolveUAF_poi_ub (s : DWState) :
    (resolveUAF s).poi.ub = s.poi.ub := rfl

@[simp] lemma resolveUAF_poi_tb (s : DWState) :
    (resolveUAF s).poi.tb = s.poi.tb := rfl

@[simp] lemma resolveUAR_target (s : DWState) :
    (resolveUAR s).target = s.target := rfl

@[simp] lemma resolveUAR_bound (s : DWState) :
    (resolveUAR s).bound = s.bound := rfl

@[simp] lemma resolveUAR_sample (s : DWState) :
    (resolveUAR s).sample = s.sample := rfl

@[simp] lemma resolveUAR_tirePos (s : DWState) :
    (resolveUAR s).tirePos = s.tirePos := rfl

@[simp] lemma resolveUAR_tireRot (s : DWState) :
    (resolveUAR s).tireRot = s.tireRot := rfl

@[simp] lemma resolveUAR_wheelPos (s : DWState) :
    (resolveUAR s).wheelPos = s.wheelPos := rfl

@[simp] lemma resolveUAR_wheelRot (s : DWState) :
    (resolveUAR s).wheelRot = s.wheelRot := rfl

@[simp] lemma resolveUAR_bodyPos (s : DWState) :
    (resolveUAR s).bodyPos = s.bodyPos := rfl

@[simp] lemma resolveUAR_bodyRot (s : DWState) :
    (resolveUAR s).bodyRot = s.bodyRot := rfl

@[simp] lemma resolveUAR_axlePos (s : DWState) :
    (resolveUAR s).axlePos = s.axlePos := rfl

@[simp] lemma resolveUAR_rcPos (s : DWState) :
    (resolveUAR s).rcPos = s.rcPos := rfl

@[simp] lemma resolveUAR_poi_laf (s : DWState) :
    (resolveUAR s).poi.laf = s.poi.laf := rfl

@[simp] lemma resolveUAR_poi_lar (s : DWState) :
    (resolveUAR s).poi.lar = s.poi.lar := rfl

@[simp] lemma resolveUAR_poi_uaf (s : DWState) :
    (resolveUAR s).poi.uaf = s.poi.uaf := rfl

@[simp] lemma resolveUAR_poi_uar (s : DWState) :
    (resolveUAR s).poi.uar = resolvePoI s.bound.uar s.sample.uar := rfl

@[simp] lemma resolveUAR_poi_ta (s : DWState) :
    (resolveUAR s).poi.ta = s.poi.ta := rfl

@[simp] lemma resolveUAR_poi_lb (s : DWState) :
    (resolveUAR s).poi.lb = s.poi.lb := rfl

@[simp] lemma resolveUAR_poi_ub (s : DWState) :
    (resolveUAR s).poi.ub = s.poi.ub := rfl

@[simp] lemma resolveUAR_poi_tb (s : DWState) :
    (resolveUAR s).poi.tb = s.poi.tb := rfl

@[simp] lemma resolveTA_target (s : DWState) :
    (resolveTA s).target = s.target := rfl

@[simp] lemma resolveTA_bound (s : DWState) :
    (resolveTA s).bound = s.bound := rfl

@[simp] lemma resolveTA_sample (s : DWState) :
    (resolveTA s).sample = s.sample := rfl

@[simp] lemma resolveTA_tirePos (s : DWState) :
    (resolveTA s).tirePos = s.tirePos := rfl

@[simp] lemma resolveTA_tireRot (s : DWState) :
    (resolveTA s).tireRot = s.tireRot := rfl

@[simp] lemma resolveTA_wheelPos (s : DWState) :
    (resolveTA s).wheelPos = s.wheelPos := rfl

@[simp] lemma resolveTA_wheelRot (s : DWState) :
    (resolveTA s).wheelRot = s.wheelRot := rfl

@[simp] lemma resolveTA_bodyPos (s : DWState) :
    (resolveTA s).bodyPos = s.bodyPos := rfl

@[simp] lemma resolveTA_bodyRot (s : DWState) :
    (resolveTA s).bodyRot = s.bodyRot := rfl

@[simp] lemma resolveTA_axlePos (s : DWState) :
    (resolveTA s).axlePos = s.axlePos := rfl

@[simp] lemma resolveTA_rcPos (s : DWState) :
    (resolveTA s).rcPos = s.rcPos := rfl

@[simp] lemma resolveTA_poi_laf (s : DWState) :
    (resolveTA s).poi.laf = s.poi.laf := rfl

@[simp] lemma resolveTA_poi_lar (s : DWState) :
    (resolveTA s).poi.lar = s.poi.lar := rfl

@[simp] lemma resolveTA_poi_uaf (s : DWState) :
    (resolveTA s).poi.uaf = s.poi.uaf := rfl

@[simp] lemma resolveTA_poi_uar (s : DWState) :
    (resolveTA s).poi.uar = s.poi.uar := rfl

@[simp] lemma resolveTA_poi_ta (s : DWState) :
    (resolveTA s).poi.ta = resolvePoI s.bound.ta s.sample.ta := rfl

@[simp] lemma resolveTA_poi_lb (s : DWState) :
    (resolveTA s).poi.lb = s.poi.lb := rfl

@[simp] lemma resolveTA_poi_ub (s : DWState) :
    (resolveTA s).poi.ub = s.poi.ub := rfl

@[simp] lemma resolveTA_poi_tb (s : DWState) :
    (resolveTA s).poi.tb = s.poi.tb := rfl

@[simp] lemma resolveLB_target (s : DWState) :
    (resolveLB s).target = s.target := rfl

@[simp] lemma resolveLB_bound (s : DWState) :
    (resolveLB s).bound = s.bound := rfl

@[simp] lemma resolveLB_sample (s : DWState) :
    (resolveLB s).sample = s.sample := rfl

@[simp] lemma resolveLB_tirePos (s : DWState) :
    (resolveLB s).tirePos = s.tirePos := rfl

@[simp] lemma resolveLB_tireRot (s : DWState) :
    (resolveLB s).tireRot = s.tireRot := rfl

@[simp] lemma resolveLB_wheelPos (s : DWState) :
    (resolveLB s).wheelPos = s.wheelPos := rfl

@[simp] lemma resolveLB_wheelRot (s : DWState) :
    (resolveLB s).wheelRot = s.wheelRot := rfl

@[simp] lemma resolveLB_bodyPos (s : DWState) :
    (resolveLB s).bodyPos = s.bodyPos := rfl

@[simp] lemma resolveLB_bodyRot (s : DWState) :
    (resolveLB s).bodyRot = s.bodyRot := rfl

@[simp] lemma resolveLB_axlePos (s : DWState) :
    (resolveLB s).axlePos = s.axlePos := rfl

@[simp] lemma resolveLB_rcPos (s : DWState) :
    (resolveLB s).rcPos = s.rcPos := rfl

@[simp] lemma resolveLB_poi_laf (s : DWState) :
    (resolveLB s).poi.laf = s.poi.laf := rfl

@[simp] lemma resolveLB_poi_lar (s : DWState) :
    (resolveLB s).poi.lar = s.poi.lar := rfl

@[simp] lemma resolveLB_poi_uaf (s : DWState) :
    (resolveLB s).poi.uaf = s.poi.uaf := rfl

@[simp] lemma resolveLB_poi_uar (s : DWState) :
    (resolveLB s).poi.uar = s.poi.uar := rfl

@[simp] lemma resolveLB_poi_ta (s : DWState) :
    (resolveLB s).poi.ta = s.poi.ta := rfl

@[simp] lemma resolveLB_poi_lb (s : DWState) :
    (resolveLB s).poi.lb = resolvePoI s.bound.lb s.sample.lb := rfl

@[simp] lemma resolveLB_poi_ub (s : DWState) :
    (resolveLB s).poi.ub = s.poi.ub := rfl

@[simp] lemma resolveLB_poi_tb (s : DWState) :
    (resolveLB s).poi.tb = s.poi.tb := rfl

@[simp] lemma resolveUB_target (s : DWState) :
    (resolveUB s).target = s.target := rfl

@[simp] lemma resolveUB_bound (s : DWState) :
    (resolveUB s).bound = s.bound := rfl

@[simp] lemma resolveUB_sample (s : DWState) :
    (resolveUB s).sample = s.sample := rfl

@[simp] lemma resolveUB_tirePos (s : DWState) :
    (resolveUB s).tirePos = s.tirePos := rfl

@[simp] lemma resolveUB_tireRot (s : DWState) :
    (resolveUB s).tireRot = s.tireRot := rfl

@[simp] lemma resolveUB_wheelPos (s : DWState) :
    (resolveUB s).wheelPos = s.wheelPos := rfl

@[simp] lemma resolveUB_wheelRot (s : DWState) :
    (resolveUB s).wheelRot = s.wheelRot := rfl

@[simp] lemma resolveUB_bodyPos (s : DWState) :
    (resolveUB s).bodyPos = s.bodyPos := rfl

@[simp] lemma resolveUB_bodyRot (s : DWState) :
    (resolveUB s).bodyRot = s.bodyRot := rfl

@[simp] lemma resolveUB_axlePos (s : DWState) :
    (resolveUB s).axlePos = s.axlePos := rfl

@[simp] lemma resolveUB_rcPos (s : DWState) :
    (resolveUB s).rcPos = s.rcPos := rfl

@[simp] lemma resolveUB_poi_laf (s : DWState) :
    (resolveUB s).poi.laf = s.poi.laf := rfl

@[simp] lemma resolveUB_poi_lar (s : DWState) :
    (resolveUB s).poi.lar = s.poi.lar := rfl

@[simp] lemma resolveUB_poi_uaf (s : DWState) :
    (resolveUB s).poi.uaf = s.poi.uaf := rfl

@[simp] lemma resolveUB_poi_uar (s : DWState) :
    (resolveUB s).poi.uar = s.poi.uar := rfl

@[simp] lemma resolveUB_poi_ta (s : DWState) :
    (resolveUB s).poi.ta = s.poi.ta := rfl

@[simp] lemma resolveUB_poi_lb (s : DWState) :
    (resolveUB s).poi.lb = s.poi.lb := rfl

@[simp] lemma resolveUB_poi_ub (s : DWState) :
    (resolveUB s).poi.ub = resolvePoI s.bound.ub s.sample.ub := rfl

@[simp] lemma resolveUB_poi_tb (s : DWState) :
    (resolveUB s).poi.tb = s.poi.tb := rfl

@[simp] lemma resolveTB_target (s : DWState) :
    (resolveTB s).target = s.target := rfl

@[simp] lemma resolveTB_bound (s : DWState) :
    (resolveTB s).bound = s.bound := rfl

@[simp] lemma resolveTB_sample (s : DWState) :
    (resolveTB s).sample = s.sample := rfl

@[simp] lemma resolveTB_tirePos (s : DWState) :
    (resolveTB s).tirePos = s.tirePos := rfl

@[simp] lemma resolveTB_tireRot (s : DWState) :
    (resolveTB s).tireRot = s.tireRot := rfl

@[simp] lemma resolveTB_wheelPos (s : DWState) :
    (resolveTB s).wheelPos = s.wheelPos := rfl

@[simp] lemma resolveTB_wheelRot (s : DWState) :
    (resolveTB s).wheelRot = s.wheelRot := rfl

@[simp] lemma resolveTB_bodyPos (s : DWState) :
    (resolveTB s).bodyPos = s.bodyPos := rfl

@[simp] lemma resolveTB_bodyRot (s : DWState) :
    (resolveTB s).bodyRot = s.bodyRot := rfl

@[simp] lemma resolveTB_axlePos (s : DWState) :
    (resolveTB s).axlePos = s.axlePos := rfl

@[simp] lemma resolveTB_rcPos (s : DWState) :
    (resolveTB s).rcPos = s.rcPos := rfl

@[simp] lemma resolveTB_poi_laf (s : DWState) :
    (resolveTB s).poi.laf = s.poi.laf := rfl

@[simp] lemma resolveTB_poi_lar (s : DWState) :
    (resolveTB s).poi.lar = s.poi.lar := rfl

@[simp] lemma resolveTB_poi_uaf (s : DWState) :
    (resolveTB s).poi.uaf = s.poi.uaf := rfl

@[simp] lemma resolveTB_poi_uar (s : DWState) :
    (resolveTB s).poi.uar = s.poi.uar := rfl

@[simp] lemma resolveTB_poi_ta (s : DWState) :
    (resolveTB s).poi.ta = s.poi.ta := rfl

@[simp] lemma resolveTB_poi_lb (s : DWState) :
    (resolveTB s).poi.lb = s.poi.lb := rfl

@[simp] lemma resolveTB_poi_ub (s : DWState) :
    (resolveTB s).poi.ub = s.poi.ub := rfl

@[simp] lemma resolveTB_poi_tb (s : DWState) :
    (resolveTB s).poi.tb = resolvePoI s.bound.tb s.sample.tb := rfl

@[simp] lemma inheritLAR_target (s : DWState) :
    (inheritLAR s).target = s.target := by unfold inheritLAR; split <;> rfl

@[simp] lemma inheritLAR_sample (s : DWState) :
    (inheritLAR s).sample = s.sample := by unfold inheritLAR; split <;> rfl

@[simp] lemma inheritLAR_tirePos (s : DWState) :
    (inheritLAR s).tirePos = s.tirePos := by unfold inheritLAR; split <;> rfl

@[simp] lemma inheritLAR_tireRot (s : DWState) :
    (inheritLAR s).tireRot = s.tireRot := by unfold inheritLAR; split <;> rfl

@[simp] lemma inheritLAR_wheelPos (s : DWState) :
    (inheritLAR s).wheelPos = s.wheelPos := by unfold inheritLAR; split <;> rfl

@[simp] lemma inheritLAR_wheelRot (s : DWState) :
    (inheritLAR s).wheelRot = s.wheelRot := by unfold inheritLAR; split <;> rfl

@[simp] lemma inheritLAR_bodyPos (s : DWState) :
    (inheritLAR s).bodyPos = s.bodyPos := by unfold inheritLAR; split <;> rfl

@[simp] lemma inheritLAR_bodyRot (s : DWState) :
    (inheritLAR s).bodyRot = s.bodyRot := by unfold inheritLAR; split <;> rfl

@[simp] lemma inheritLAR_axlePos (s : DWState) :
    (inheritLAR s).axlePos = s.axlePos := by unfold inheritLAR; split <;> rfl

@[simp] lemma inheritLAR_rcPos (s : DWState) :
    (inheritLAR s).rcPos = s.rcPos := by unfold inheritLAR; split <;> rfl

@[simp] lemma inheritLAR_bound_laf (s : DWState) :
    (inheritLAR s).bound.laf = s.bound.laf := by unfold inheritLAR; split <;> rfl

@[simp] lemma inheritLAR_bound_uaf (s : DWState) :
    (inheritLAR s).bound.uaf = s.bound.uaf := by unfold inheritLAR; split <;> rfl

@[simp] lemma inheritLAR_bound_uar (s : DWState) :
    (inheritLAR s).bound.uar = s.bound.uar := by unfold inheritLAR; split <;> rfl

@[simp] lemma inheritLAR_bound_ta (s : DWState) :
    (inheritLAR s).bound.ta = s.bound.ta := by unfold inheritLAR; split <;> rfl

@[simp] lemma inheritLAR_bound_lb (s : DWState) :
    (inheritLAR s).bound.lb = s.bound.lb := by unfold inheritLAR; split <;> rfl

@[simp] lemma inheritLAR_bound_ub (s : DWState) :
    (inheritLAR s).bound.ub = s.bound.ub := by unfold inheritLAR; split <;> rfl

@[simp] lemma inheritLAR_bound_tb (s : DWState) :
    (inheritLAR s).bound.tb = s.bound.tb := by unfold inheritLAR; split <;> rfl

@[simp] lemma inheritLAR_bound_lar_x (s : DWState) :
    (inheritLAR s).bound.lar.x = s.bound.lar.x := by unfold inheritLAR; split <;> rfl

@[simp] lemma inheritLAR_bound_lar_z (s : DWState) :
    (inheritLAR s).bound.lar.z = s.bound.lar.z := by unfold inheritLAR; split <;> rfl

@[simp] lemma inheritLAR_bound_lar_y (s : DWState) :
    (inheritLAR s).bound.lar.y = if s.bound.lar.y = (0, 0) then s.bound.laf.y else s.bound.lar.y := by unfold inheritLAR; split <;> rfl

@[simp] lemma inheritLAR_poi_laf (s : DWState) :
    (inheritLAR s).poi.laf = s.poi.laf := by unfold inheritLAR; split <;> rfl

@[simp] lemma inheritLAR_poi_uaf (s : DWState) :
    (inheritLAR s).poi.uaf = s.poi.uaf := by unfold inheritLAR; split <;> rfl

@[simp] lemma inheritLAR_poi_uar (s : DWState) :
    (inheritLAR s).poi.uar = s.poi.uar := by unfold inheritLAR; split <;> rfl

@[simp] lemma inheritLAR_poi_ta (s : DWState) :
    (inheritLAR s).poi.ta = s.poi.ta := by unfold inheritLAR; split <;> rfl

@[simp] lemma inheritLAR_poi_lb (s : DWState) :
    (inheritLAR s).poi.lb = s.poi.lb := by unfold inheritLAR; split <;> rfl

@[simp] lemma inheritLAR_poi_ub (s : DWState) :
    (inheritLAR s).poi.ub = s.poi.ub := by unfold inheritLAR; split <;> rfl

@[simp] lemma inheritLAR_poi_tb (s : DWState) :
    (inheritLAR s).poi.tb = s.poi.tb := by unfold inheritLAR; split <;> rfl

@[simp] lemma inheritLAR_poi_lar_x (s : DWState) :
    (inheritLAR s).poi.lar.x = s.poi.lar.x := by unfold inheritLAR; split <;> rfl

@[simp] lemma inheritLAR_poi_lar_z (s : DWState) :
    (inheritLAR s).poi.lar.z = s.poi.lar.z := by unfold inheritLAR; split <;> rfl

@[simp] lemma inheritLAR_poi_lar_y (s : DWState) :
    (inheritLAR s).poi.lar.y = if s.bound.lar.y = (0, 0) then s.poi.laf.y else s.poi.lar.y := by unfold inheritLAR; split <;> rfl

@[simp] lemma inheritUAF_target (s : DWState) :
    (inheritUAF s).target = s.target := by unfold inheritUAF; split <;> rfl

@[simp] lemma inheritUAF_sample (s : DWState) :
    (inheritUAF s).sample = s.sample := by unfold inheritUAF; split <;> rfl

@[simp] lemma inheritUAF_tirePos (s : DWState) :
    (inheritUAF s).tirePos = s.tirePos := by unfold inheritUAF; split <;> rfl

@[simp] lemma inheritUAF_tireRot (s : DWState) :
    (inheritUAF s).tireRot = s.tireRot := by unfold inheritUAF; split <;> rfl

@[simp] lemma inheritUAF_wheelPos (s : DWState) :
    (inheritUAF s).wheelPos = s.wheelPos := by unfold inheritUAF; split <;> rfl

@[simp] lemma inheritUAF_wheelRot (s : DWState) :
    (inheritUAF s).wheelRot = s.wheelRot := by unfold inheritUAF; split <;> rfl

@[simp] lemma inheritUAF_bodyPos (s : DWState) :
    (inheritUAF s).bodyPos = s.bodyPos := by unfold inheritUAF; split <;> rfl

@[simp] lemma inheritUAF_bodyRot (s : DWState) :
    (inheritUAF s).bodyRot = s.bodyRot := by unfold inheritUAF; split <;> rfl

@[simp] lemma inheritUAF_axlePos (s : DWState) :
    (inheritUAF s).axlePos = s.axlePos := by unfold inheritUAF; split <;> rfl

@[simp] lemma inheritUAF_rcPos (s : DWState) :
    (inheritUAF s).rcPos = s.rcPos := by unfold inheritUAF; split <;> rfl

@[simp] lemma inheritUAF_bound_laf (s : DWState) :
    (inheritUAF s).bound.laf = s.bound.laf := by unfold inheritUAF; split <;> rfl

@[simp] lemma inheritUAF_bound_lar (s : DWState) :
    (inheritUAF s).bound.lar = s.bound.lar := by unfold inheritUAF; split <;> rfl

@[simp] lemma inheritUAF_bound_uar (s : DWState) :
    (inheritUAF s).bound.uar = s.bound.uar := by unfold inheritUAF; split <;> rfl

@[simp] lemma inheritUAF_bound_ta (s : DWState) :
    (inheritUAF s).bound.ta = s.bound.ta := by unfold inheritUAF; split <;> rfl

@[simp] lemma inheritUAF_bound_lb (s : DWState) :
    (inheritUAF s).bound.lb = s.bound.lb := by unfold inheritUAF; split <;> rfl

@[simp] lemma inheritUAF_bound_ub (s : DWState) :
    (inheritUAF s).bound.ub = s.bound.ub := by unfold inheritUAF; split <;> rfl

@[simp] lemma inheritUAF_bound_tb (s : DWState) :
    (inheritUAF s).bound.tb = s.bound.tb := by unfold inheritUAF; split <;> rfl

@[simp] lemma inheritUAF_bound_uaf_y (s : DWState) :
    (inheritUAF s).bound.uaf.y = s.bound.uaf.y := by unfold inheritUAF; split <;> rfl

@[simp] lemma inheritUAF_bound_uaf_z (s : DWState) :
    (inheritUAF s).bound.uaf.z = s.bound.uaf.z := by unfold inheritUAF; split <;> rfl

@[simp] lemma inheritUAF_bound_uaf_x (s : DWState) :
    (inheritUAF s).bound.uaf.x = if s.bound.uaf.x = (0, 0) then s.bound.laf.x else s.bound.uaf.x := by unfold inheritUAF; split <;> rfl

@[simp] lemma inheritUAF_poi_laf (s : DWState) :
    (inheritUAF s).poi.laf = s.poi.laf := by unfold inheritUAF; split <;> rfl

@[simp] lemma inheritUAF_poi_lar (s : DWState) :
    (inheritUAF s).poi.lar = s.poi.lar := by unfold inheritUAF; split <;> rfl

@[simp] lemma inheritUAF_poi_uar (s : DWState) :
    (inheritUAF s).poi.uar = s.poi.uar := by unfold inheritUAF; split <;> rfl

@[simp] lemma inheritUAF_poi_ta (s : DWState) :
    (inheritUAF s).poi.ta = s.poi.ta := by unfold inheritUAF; split <;> rfl

@[simp] lemma inheritUAF_poi_lb (s : DWState) :
    (inheritUAF s).poi.lb = s.poi.lb := by unfold inheritUAF; split <;> rfl

@[simp] lemma inheritUAF_poi_ub (s : DWState) :
    (inheritUAF s).poi.ub = s.poi.ub := by unfold inheritUAF; split <;> rfl

@[simp] lemma inheritUAF_poi_tb (s : DWState) :
    (inheritUAF s).poi.tb = s.poi.tb := by unfold inheritUAF; split <;> rfl

@[simp] lemma inheritUAF_poi_uaf_y (s : DWState) :
    (inheritUAF s).poi.uaf.y = s.poi.uaf.y := by unfold inheritUAF; split <;> rfl

@[simp] lemma inheritUAF_poi_uaf_z (s : DWState) :
    (inheritUAF s).poi.uaf.z = s.poi.uaf.z := by unfold inheritUAF; split <;> rfl

@[simp] lemma inheritUAF_poi_uaf_x (s : DWState) :
    (inheritUAF s).poi.uaf.x = if s.bound.uaf.x = (0, 0) then s.poi.laf.x else s.poi.uaf.x := by unfold inheritUAF; split <;> rfl

@[simp] lemma inheritUARlong_target (s : DWState) :
    (inheritUARlong s).target = s.target := by unfold inheritUARlong; split <;> rfl

@[simp] lemma inheritUARlong_sample (s : DWState) :
    (inheritUARlong s).sample = s.sample := by unfold inheritUARlong; split <;> rfl

@[simp] lemma inheritUARlong_tirePos (s : DWState) :
    (inheritUARlong s).tirePos = s.tirePos := by unfold inheritUARlong; split <;> rfl

@[simp] lemma inheritUARlong_tireRot (s : DWState) :
    (inheritUARlong s).tireRot = s.tireRot := by unfold inheritUARlong; split <;> rfl

@[simp] lemma inheritUARlong_wheelPos (s : DWState) :
    (inheritUARlong s).wheelPos = s.wheelPos := by unfold inheritUARlong; split <;> rfl

@[simp] lemma inheritUARlong_wheelRot (s : DWState) :
    (inheritUARlong s).wheelRot = s.wheelRot := by unfold inheritUARlong; split <;> rfl

@[simp] lemma inheritUARlong_bodyPos (s : DWState) :
    (inheritUARlong s).bodyPos = s.bodyPos := by unfold inheritUARlong; split <;> rfl

@[simp] lemma inheritUARlong_bodyRot (s : DWState) :
    (inheritUARlong s).bodyRot = s.bodyRot := by unfold inheritUARlong; split <;> rfl

@[simp] lemma inheritUARlong_axlePos (s : DWState) :
    (inheritUARlong s).axlePos = s.axlePos := by unfold inheritUARlong; split <;> rfl

@[simp] lemma inheritUARlong_rcPos (s : DWState) :
    (inheritUARlong s).rcPos = s.rcPos := by unfold inheritUARlong; split <;> rfl

@[simp] lemma inheritUARlong_bound_laf (s : DWState) :
    (inheritUARlong s).bound.laf = s.bound.laf := by unfold inheritUARlong; split <;> rfl

@[simp] lemma inheritUARlong_bound_lar (s : DWState) :
    (inheritUARlong s).bound.lar = s.bound.lar := by unfold inheritUARlong; split <;> rfl

@[simp] lemma inheritUARlong_bound_uaf (s : DWState) :
    (inheritUARlong s).bound.uaf = s.bound.uaf := by unfold inheritUARlong; split <;> rfl

@[simp] lemma inheritUARlong_bound_ta (s : DWState) :
    (inheritUARlong s).bound.ta = s.bound.ta := by unfold inheritUARlong; split <;> rfl

@[simp] lemma inheritUARlong_bound_lb (s : DWState) :
    (inheritUARlong s).bound.lb = s.bound.lb := by unfold inheritUARlong; split <;> rfl

@[simp] lemma inheritUARlong_bound_ub (s : DWState) :
    (inheritUARlong s).bound.ub = s.bound.ub := by unfold inheritUARlong; split <;> rfl

@[simp] lemma inheritUARlong_bound_tb (s : DWState) :
    (inheritUARlong s).bound.tb = s.bound.tb := by unfold inheritUARlong; split <;> rfl

@[simp] lemma inheritUARlong_bound_uar_y (s : DWState) :
    (inheritUARlong s).bound.uar.y = s.bound.uar.y := by unfold inheritUARlong; split <;> rfl

@[simp] lemma inheritUARlong_bound_uar_z (s : DWState) :
    (inheritUARlong s).bound.uar.z = s.bound.uar.z := by unfold inheritUARlong; split <;> rfl

@[simp] lemma inheritUARlong_bound_uar_x (s : DWState) :
    (inheritUARlong s).bound.uar.x = if s.bound.uar.x = (0, 0) then s.bound.lar.x else s.bound.uar.x := by unfold inheritUARlong; split <;> rfl

@[simp] lemma inheritUARlong_poi_laf (s : DWState) :
    (inheritUARlong s).poi.laf = s.poi.laf := by unfold inheritUARlong; split <;> rfl

@[simp] lemma inheritUARlong_poi_lar (s : DWState) :
    (inheritUARlong s).poi.lar = s.poi.lar := by unfold inheritUARlong; split <;> rfl

@[simp] lemma inheritUARlong_poi_uaf (s : DWState) :
    (inheritUARlong s).poi.uaf = s.poi.uaf := by unfold inheritUARlong; split <;> rfl

@[simp] lemma inheritUARlong_poi_ta (s : DWState) :
    (inheritUARlong s).poi.ta = s.poi.ta := by unfold inheritUARlong; split <;> rfl

@[simp] lemma inheritUARlong_poi_lb (s : DWState) :
    (inheritUARlong s).poi.lb = s.poi.lb := by unfold inheritUARlong; split <;> rfl

@[simp] lemma inheritUARlong_poi_ub (s : DWState) :
    (inheritUARlong s).poi.ub = s.poi.ub := by unfold inheritUARlong; split <;> rfl

@[simp] lemma inheritUARlong_poi_tb (s : DWState) :
    (inheritUARlong s).poi.tb = s.poi.tb := by unfold inheritUARlong; split <;> rfl

@[simp] lemma inheritUARlong_poi_uar_y (s : DWState) :
    (inheritUARlong s).poi.uar.y = s.poi.uar.y := by unfold inheritUARlong; split <;> rfl

@[simp] lemma inheritUARlong_poi_uar_z (s : DWState) :
    (inheritUARlong s).poi.uar.z = s.poi.uar.z := by unfold inheritUARlong; split <;> rfl

@[simp] lemma inheritUARlong_poi_uar_x (s : DWState) :
    (inheritUARlong s).poi.uar.x = if s.bound.uar.x = (0, 0) then s.poi.lar.x else s.poi.uar.x := by unfold inheritUARlong; split <;> rfl

@[simp] lemma inheritUARlat_target (s : DWState) :
    (inheritUARlat s).target = s.target := by unfold inheritUARlat; split <;> rfl

@[simp] lemma inheritUARlat_sample (s : DWState) :
    (inheritUARlat s).sample = s.sample := by unfold inheritUARlat; split <;> rfl

@[simp] lemma inheritUARlat_tirePos (s : DWState) :
    (inheritUARlat s).tirePos = s.tirePos := by unfold inheritUARlat; split <;> rfl

@[simp] lemma inheritUARlat_tireRot (s : DWState) :
    (inheritUARlat s).tireRot = s.tireRot := by unfold inheritUARlat; split <;> rfl

@[simp] lemma inheritUARlat_wheelPos (s : DWState) :
    (inheritUARlat s).wheelPos = s.wheelPos := by unfold inheritUARlat; split <;> rfl

@[simp] lemma inheritUARlat_wheelRot (s : DWState) :
    (inheritUARlat s).wheelRot = s.wheelRot := by unfold inheritUARlat; split <;> rfl

@[simp] lemma inheritUARlat_bodyPos (s : DWState) :
    (inheritUARlat s).bodyPos = s.bodyPos := by unfold inheritUARlat; split <;> rfl

@[simp] lemma inheritUARlat_bodyRot (s : DWState) :
    (inheritUARlat s).bodyRot = s.bodyRot := by unfold inheritUARlat; split <;> rfl

@[simp] lemma inheritUARlat_axlePos (s : DWState) :
    (inheritUARlat s).axlePos = s.axlePos := by unfold inheritUARlat; split <;> rfl

@[simp] lemma inheritUARlat_rcPos (s : DWState) :
    (inheritUARlat s).rcPos = s.rcPos := by unfold inheritUARlat; split <;> rfl

@[simp] lemma inheritUARlat_bound_laf (s : DWState) :
    (inheritUARlat s).bound.laf = s.bound.laf := by unfold inheritUARlat; split <;> rfl

@[simp] lemma inheritUARlat_bound_lar (s : DWState) :
    (inheritUARlat s).bound.lar = s.bound.lar := by unfold inheritUARlat; split <;> rfl

@[simp] lemma inheritUARlat_bound_uaf (s : DWState) :
    (inheritUARlat s).bound.uaf = s.bound.uaf := by unfold inheritUARlat; split <;> rfl

@[simp] lemma inheritUARlat_bound_ta (s : DWState) :
    (inheritUARlat s).bound.ta = s.bound.ta := by unfold inheritUARlat; split <;> rfl

@[simp] lemma inheritUARlat_bound_lb (s : DWState) :
    (inheritUARlat s).bound.lb = s.bound.lb := by unfold inheritUARlat; split <;> rfl

@[simp] lemma inheritUARlat_bound_ub (s : DWState) :
    (inheritUARlat s).bound.ub = s.bound.ub := by unfold inheritUARlat; split <;> rfl

@[simp] lemma inheritUARlat_bound_tb (s : DWState) :
    (inheritUARlat s).bound.tb = s.bound.tb := by unfold inheritUARlat; split <;> rfl

@[simp] lemma inheritUARlat_bound_uar_x (s : DWState) :
    (inheritUARlat s).bound.uar.x = s.bound.uar.x := by unfold inheritUARlat; split <;> rfl

@[simp] lemma inheritUARlat_bound_uar_z (s : DWState) :
    (inheritUARlat s).bound.uar.z = s.bound.uar.z := by unfold inheritUARlat; split <;> rfl

@[simp] lemma inheritUARlat_bound_uar_y (s : DWState) :
    (inheritUARlat s).bound.uar.y = if s.bound.uar.y = (0, 0) then s.bound.uaf.y else s.bound.uar.y := by unfold inheritUARlat; split <;> rfl

@[simp] lemma inheritUARlat_poi_laf (s : DWState) :
    (inheritUARlat s).poi.laf = s.poi.laf := by unfold inheritUARlat; split <;> rfl

@[simp] lemma inheritUARlat_poi_lar (s : DWState) :
    (inheritUARlat s).poi.lar = s.poi.lar := by unfold inheritUARlat; split <;> rfl

@[simp] lemma inheritUARlat_poi_uaf (s : DWState) :
    (inheritUARlat s).poi.uaf = s.poi.uaf := by unfold inheritUARlat; split <;> rfl

@[simp] lemma inheritUARlat_poi_ta (s : DWState) :
    (inheritUARlat s).poi.ta = s.poi.ta := by unfold inheritUARlat; split <;> rfl

@[simp] lemma inheritUARlat_poi_lb (s : DWState) :
    (inheritUARlat s).poi.lb = s.poi.lb := by unfold inheritUARlat; split <;> rfl

@[simp] lemma inheritUARlat_poi_ub (s : DWState) :
    (inheritUARlat s).poi.ub = s.poi.ub := by unfold inheritUARlat; split <;> rfl

@[simp] lemma inheritUARlat_poi_tb (s : DWState) :
    (inheritUARlat s).poi.tb = s.poi.tb := by unfold inheritUARlat; split <;> rfl

@[simp] lemma inheritUARlat_poi_uar_x (s : DWState) :
    (inheritUARlat s).poi.uar.x = s.poi.uar.x := by unfold inheritUARlat; split <;> rfl

@[simp] lemma inheritUARlat_poi_uar_z (s : DWState) :
    (inheritUARlat s).poi.uar.z = s.poi.uar.z := by unfold inheritUARlat; split <;> rfl

@[simp] lemma inheritUARlat_poi_uar_y (s : DWState) :
    (inheritUARlat s).poi.uar.y = if s.bound.uar.y = (0, 0) then s.poi.uaf.y else s.poi.uar.y := by unfold inheritUARlat; split <;> rfl

@[simp] lemma framesStage_target (f : ℚ → ℚ) (s : DWState) :
    (framesStage f s).target = s.target := rfl

@[simp] lemma framesStage_bound (f : ℚ → ℚ) (s : DWState) :
    (framesStage f s).bound = s.bound := rfl

@[simp] lemma framesStage_sample (f : ℚ → ℚ) (s : DWState) :
    (framesStage f s).sample = s.sample := rfl

@[simp] lemma framesStage_tirePos (f : ℚ → ℚ) (s : DWState) :
    (framesStage f s).tirePos = { s.tirePos with x := tirePos0 s.target, y := s.target.track / 2 } := rfl

@[simp] lemma framesStage_tireRot (f : ℚ → ℚ) (s : DWState) :
    (framesStage f s).tireRot = { s.tireRot with x := -s.target.camber, z := s.target.toe } := rfl

@[simp] lemma framesStage_wheelPos (f : ℚ → ℚ) (s : DWState) :
    (framesStage f s).wheelPos = { s.wheelPos with z := s.target.loadedRadius / f s.target.camber } := rfl

@[simp] lemma framesStage_wheelRot (f : ℚ → ℚ) (s : DWState) :
    (framesStage f s).wheelRot = { s.wheelRot with y := -s.target.caster } := rfl

@[simp] lemma framesStage_bodyPos (f : ℚ → ℚ) (s : DWState) :
    (framesStage f s).bodyPos = s.bodyPos := rfl

@[simp] lemma framesStage_bodyRot (f : ℚ → ℚ) (s : DWState) :
    (framesStage f s).bodyRot = s.bodyRot := rfl

@[simp] lemma framesStage_axlePos (f : ℚ → ℚ) (s : DWState) :
    (framesStage f s).axlePos = s.axlePos := rfl

@[simp] lemma framesStage_poi (f : ℚ → ℚ) (s : DWState) :
    (framesStage f s).poi = s.poi := rfl

@[simp] lemma framesStage_rcPos (f : ℚ → ℚ) (s : DWState) :
    (framesStage f s).rcPos = s.rcPos := rfl

@[simp] lemma bodyAxleStage_target (c : V3) (s : DWState) :
    (bodyAxleStage c s).target = s.target := rfl

@[simp] lemma bodyAxleStage_bound (c : V3) (s : DWState) :
    (bodyAxleStage c s).bound = s.bound := rfl

@[simp] lemma bodyAxleStage_sample (c : V3) (s : DWState) :
    (bodyAxleStage c s).sample = s.sample := rfl

@[simp] lemma bodyAxleStage_tirePos (c : V3) (s : DWState) :
    (bodyAxleStage c s).tirePos = s.tirePos := rfl

@[simp] lemma bodyAxleStage_tireRot (c : V3) (s : DWState) :
    (bodyAxleStage c s).tireRot = s.tireRot := rfl

@[simp] lemma bodyAxleStage_wheelPos (c : V3) (s : DWState) :
    (bodyAxleStage c s).wheelPos = s.wheelPos := rfl

@[simp] lemma bodyAxleStage_wheelRot (c : V3) (s : DWState) :
    (bodyAxleStage c s).wheelRot = s.wheelRot := rfl

@[simp] lemma bodyAxleStage_bodyPos (c : V3) (s : DWState) :
    (bodyAxleStage c s).bodyPos = { s.bodyPos with z := c.z } := rfl

@[simp] lemma bodyAxleStage_bodyRot (c : V3) (s : DWState) :
    (bodyAxleStage c s).bodyRot = { s.bodyRot with y := s.target.rake } := rfl

@[simp] lemma bodyAxleStage_axlePos (c : V3) (s : DWState) :
    (bodyAxleStage c s).axlePos = { s.axlePos with x := s.tirePos.x, z := s.target.ride - c.z } := rfl

@[simp] lemma bodyAxleStage_poi (c : V3) (s : DWState) :
    (bodyAxleStage c s).poi = s.poi := rfl

@[simp] lemma bodyAxleStage_rcPos (c : V3) (s : DWState) :
    (bodyAxleStage c s).rcPos = s.rcPos := rfl

@[simp] lemma rulesStage_target (g : ℚ → ℚ) (s : DWState) :
    (rulesStage g s).target = { s.target with fvsa := some (1 / g |s.target.camberGain|) } := rfl

@[simp] lemma rulesStage_bound (g : ℚ → ℚ) (s : DWState) :
    (rulesStage g s).bound = s.bound := rfl

@[simp] lemma rulesStage_sample (g : ℚ → ℚ) (s : DWState) :
    (rulesStage g s).sample = s.sample := rfl

@[simp] lemma rulesStage_tirePos (g : ℚ → ℚ) (s : DWState) :
    (rulesStage g s).tirePos = s.tirePos := rfl

@[simp] lemma rulesStage_tireRot (g : ℚ → ℚ) (s : DWState) :
    (rulesStage g s).tireRot = s.tireRot := rfl

@[simp] lemma rulesStage_wheelPos (g : ℚ → ℚ) (s : DWState) :
    (rulesStage g s).wheelPos = s.wheelPos := rfl

@[simp] lemma rulesStage_wheelRot (g : ℚ → ℚ) (s : DWState) :
    (rulesStage g s).wheelRot = s.wheelRot := rfl

@[simp] lemma rulesStage_bodyPos (g : ℚ → ℚ) (s : DWState) :
    (rulesStage g s).bodyPos = s.bodyPos := rfl

@[simp] lemma rulesStage_bodyRot (g : ℚ → ℚ) (s : DWState) :
    (rulesStage g s).bodyRot = s.bodyRot := rfl

@[simp] lemma rulesStage_axlePos (g : ℚ → ℚ) (s : DWState) :
    (rulesStage g s).axlePos = s.axlePos := rfl

@[simp] lemma rulesStage_poi (g : ℚ → ℚ) (s : DWState) :
    (rulesStage g s).poi = s.poi := rfl

@[simp] lemma rulesStage_rcPos (g : ℚ → ℚ) (s : DWState) :
    (rulesStage g s).rcPos = { s.rcPos with x := s.tirePos.x } := rfl

lemma design_invalid (sinEval arctanEval : ℚ → ℚ) (s : DWState)
    (h1 : s.target.axle ≠ "Front") (h2 : s.target.axle ≠ "Rear") :
    design sinEval arctanEval s = (s, true) := by
  unfold design
  rw [if_neg]
  simp [h1, h2]

lemma design_scalar (sinEval arctanEval : ℚ → ℚ) (s : DWState) (x : ℚ)
    (ha : s.target.axle = "Front" ∨ s.target.axle = "Rear")
    (hcg : s.target.cg = CGVal.scalar x) :
    design sinEval arctanEval s = (framesStage sinEval s, true) := by
  unfold design
  rw [if_pos ha]
  have h : (framesStage sinEval s).target.cg = CGVal.scalar x := hcg
  rw [h]

lemma design_vec (sinEval arctanEval : ℚ → ℚ) (s : DWState) (c : V3)
    (ha : s.target.axle = "Front" ∨ s.target.axle = "Rear")
    (hcg : s.target.cg = CGVal.vec c) :
    design sinEval arctanEval s =
      (rulesStage arctanEval (samplingStage (bodyAxleStage c (framesStage sinEval s))), true) := by
  unfold design
  rw [if_pos ha]
  have h : (framesStage sinEval s).target.cg = CGVal.vec c := hcg
  rw [h]

@[simp] lemma resolvePoI_x (b : B3) (sm : V3) :
    (resolvePoI b sm).x = b.x.1 + sm.x * (b.x.2 - b.x.1) := rfl

@[simp] lemma resolvePoI_y (b : B3) (sm : V3) :
    (resolvePoI b sm).y = b.y.1 + sm.y * (b.y.2 - b.y.1) := rfl

@[simp] lemma resolvePoI_z (b : B3) (sm : V3) :
    (resolvePoI b sm).z = b.z.1 + sm.z * (b.z.2 - b.z.1) := rfl

lemma samplingStage_poi_get (s : DWState) (P : HP) (i : Fin 3)
    (h : inhAxis P i → (s.bound.get P).get i ≠ (0, 0)) :
    ((samplingStage s).poi.get P).get i = (resolvePoI (s.bound.get P) (s.sample.get P)).get i := by
  cases P <;> fin_cases i <;> simp [samplingStage] <;>
    (intro h0; exact absurd h0 (by simpa using h (by decide)))

lemma samplingStage_bound_get_of (s : DWState) (P : HP) (i : Fin 3)
    (h : inhAxis P i → (s.bound.get P).get i ≠ (0, 0)) :
    ((samplingStage s).bound.get P).get i = (s.bound.get P).get i := by
  cases P <;> fin_cases i <;> simp [samplingStage] <;>
    (intro h0; exact absurd h0 (by simpa using h (by decide)))


/-! ## Claim theorems -/

/-- C10: `skew_symmetric_matrix(v)` is skew-symmetric — its transpose equals
its negation — and applied to any vector `u` it gives the cross product
`v × u`; this is the cross-product-operator identity that the Rodrigues
construction in `vector_alignment_rotation` relies on. -/
theorem skew_symmetric_matrix_spec (v u : Vec3) :
    (skew_symmetric_matrix v).transpose = -skew_symmetric_matrix v
    ∧ (skew_symmetric_matrix v).mulVec u = cross3 v u := by
  constructor
  · ext i j
    fin_cases i <;> fin_cases j <;>
      simp [skew_symmetric_matrix, Matrix.transpose_apply, Matrix.neg_apply]
  · funext i
    fin_cases i <;>
      simp [skew_symmetric_matrix, Matrix.mulVec, Matrix.dotProduct,
        Fin.sum_univ_three, cross3] <;>
      ring

/-- C5 (amended): when the direction's `index` component is nonzero
(equivalently `point_B[index] - point_A[index] ≠ 0`), `Line.__call__`
returns the point on the line through the two defining points whose
`index`-th coordinate equals `query`.  When that component is zero the call
does **not** fail: the body of `__call__` contains no check and no `raise`
(the `numpy` division by zero yields a non-finite array, returned
normally), so no `DegenerateGeometry` error exists to be raised — see the
accompanying counterexample. -/
theorem line_call_resolves_query (point_A point_B : Vec3) (query : ℚ) (index : Fin 3)
    (h : point_B index - point_A index ≠ 0) :
    ∃ p, lineCall point_A point_B query index = some p
      ∧ p index = query ∧ ∃ alpha, p = lerp point_A point_B alpha := by
  refine ⟨_, rfl, ?_, ⟨_, rfl⟩⟩
  show lerp point_A point_B ((query - point_A index) / (point_B index - point_A index)) index
      = query
  unfold lerp
  field_simp
  ring

/-- Witness for `line_call_resolves_query`: the line through `(0,0,0)` and
`(1,1,0)` queried at coordinate `5` on axis `0`. -/
theorem line_call_resolves_query_witness :
    ∃ p, lineCall ![0, 0, 0] ![1, 1, 0] 5 0 = some p
      ∧ p 0 = 5 ∧ ∃ alpha, p = lerp ![0, 0, 0] ![1, 1, 0] alpha :=
  line_call_resolves_query ![0, 0, 0] ![1, 1, 0] 5 0 (by simp)

/-- C5 counterexample: for the line through `(0,0,0)` and `(0,1,0)` queried
on axis `0`, the direction's `0`-component is zero, yet `Line.__call__`
still returns a value — it does not fail with `DegenerateGeometry` (the
source has no check; `numpy`'s division by zero produces a non-finite
result without raising). -/
theorem line_call_no_failure_counterexample :
    (![0, 1, 0] 0 - ![0, 0, 0] 0 = 0)
    ∧ (lineCall ![0, 0, 0] ![0, 1, 0] 5 0).isSome = true := by
  constructor
  · simp
  · rfl

/-- C6 (amended): for unit vectors `v_A`, `v_B` that are not antiparallel
(`1 + v_A·v_B ≠ 0`), the matrix built by `vector_alignment_rotation` maps
`v_A` exactly to `v_B` (hence to a vector parallel to `v_B`).  For
non-unit inputs the formula does not align (see the counterexample), and
the source has no special case for antiparallel inputs: at
`1 + dot(v_A, v_B) = 0` the term `(v_skew @ v_skew)/(1+c)` divides by
zero. -/
theorem vector_alignment_rotation_unit_aligns (v_A v_B : Vec3)
    (hA : dot3 v_A v_A = 1) (hB : dot3 v_B v_B = 1)
    (h : 1 + dot3 v_A v_B ≠ 0) :
    (vector_alignment_rotation v_A v_B).mulVec v_A = v_B := by
  have h' : 1 + (v_A 0 * v_B 0 + v_A 1 * v_B 1 + v_A 2 * v_B 2) ≠ 0 := by
    simpa [dot3] using h
  simp only [dot3] at hA hB
  funext i
  fin_cases i
  · simp [vector_alignment_rotation, skew_symmetric_matrix, cross3, dot3,
      Matrix.mulVec, Matrix.dotProduct, Fin.sum_univ_three, Matrix.add_apply,
      Matrix.smul_apply, Matrix.one_apply, Matrix.mul_apply]
    field_simp
    linear_combination (v_B 0 * (1 + (v_A 0 * v_B 0 + v_A 1 * v_B 1 + v_A 2 * v_B 2))
        - v_A 0 * (v_B 0 * v_B 0 + v_B 1 * v_B 1 + v_B 2 * v_B 2)) * hA - v_A 0 * hB
  · simp [vector_alignment_rotation, skew_symmetric_matrix, cross3, dot3,
      Matrix.mulVec, Matrix.dotProduct, Fin.sum_univ_three, Matrix.add_apply,
      Matrix.smul_apply, Matrix.one_apply, Matrix.mul_apply]
    field_simp
    linear_combination (v_B 1 * (1 + (v_A 0 * v_B 0 + v_A 1 * v_B 1 + v_A 2 * v_B 2))
        - v_A 1 * (v_B 0 * v_B 0 + v_B 1 * v_B 1 + v_B 2 * v_B 2)) * hA - v_A 1 * hB
  · simp [vector_alignment_rotation, skew_symmetric_matrix, cross3, dot3,
      Matrix.mulVec, Matrix.dotProduct, Fin.sum_univ_three, Matrix.add_apply,
      Matrix.smul_apply, Matrix.one_apply, Matrix.mul_apply]
    field_simp
    linear_combination (v_B 2 * (1 + (v_A 0 * v_B 0 + v_A 1 * v_B 1 + v_A 2 * v_B 2))
        - v_A 2 * (v_B 0 * v_B 0 + v_B 1 * v_B 1 + v_B 2 * v_B 2)) * hA - v_A 2 * hB

/-- Witness for `vector_alignment_rotation_unit_aligns`: the unit vectors
`(3/5, 4/5, 0)` and `(0, 0, 1)`. -/
theorem vector_alignment_rotation_unit_aligns_witness :
    dot3 ![3/5, 4/5, 0] ![3/5, 4/5, 0] = 1
    ∧ dot3 ![0, 0, 1] ![0, 0, 1] = 1
    ∧ 1 + dot3 ![3/5, 4/5, 0] ![0, 0, 1] ≠ 0
    ∧ (vector_alignment_rotation ![3/5, 4/5, 0] ![0, 0, 1]).mulVec ![3/5, 4/5, 0]
        = ![0, 0, 1] := by
  have hA : dot3 ![3/5, 4/5, 0] ![3/5, 4/5, 0] = 1 := by norm_num [dot3]
  have hB : dot3 ![(0:ℚ), 0, 1] ![0, 0, 1] = 1 := by norm_num [dot3]
  have h : 1 + dot3 ![(3:ℚ)/5, 4/5, 0] ![0, 0, 1] ≠ 0 := by norm_num [dot3]
  exact ⟨hA, hB, h, vector_alignment_rotation_unit_aligns _ _ hA hB h⟩

/-- C6 counterexample: `v_A = (2,0,0)` and `v_B = (0,1,0)` are nonzero and
not antiparallel (their cross product is nonzero), yet applying the
constructed matrix to `v_A` yields `(-6, 4, 0)`, which is **not** parallel
to `v_B` (the cross product of the image with `v_B` has a nonzero
component).  The Rodrigues shortcut of lines 374-378 is only valid for unit
vectors, and the source neither normalises its inputs nor special-cases
anything. -/
theorem vector_alignment_rotation_counterexample :
    (cross3 ![2, 0, 0] ![0, 1, 0]) 2 ≠ 0
    ∧ (vector_alignment_rotation ![2, 0, 0] ![0, 1, 0]).mulVec ![2, 0, 0] = ![-6, 4, 0]
    ∧ (cross3 ((vector_alignment_rotation ![2, 0, 0] ![0, 1, 0]).mulVec ![2, 0, 0])
        ![0, 1, 0]) 2 ≠ 0 := by
  have h2 : (vector_alignment_rotation ![2, 0, 0] ![0, 1, 0]).mulVec ![2, 0, 0]
      = ![-6, 4, 0] := by
    funext i
    fin_cases i <;>
      norm_num +decide [vector_alignment_rotation, skew_symmetric_matrix, cross3, dot3,
        Matrix.mulVec, Matrix.dotProduct, Fin.sum_univ_three, Matrix.add_apply,
        Matrix.smul_apply, Matrix.one_apply, Matrix.mul_apply]
  refine ⟨by norm_num [cross3], h2, ?_⟩
  rw [h2]
  norm_num [cross3]

/-- C7: `Plane.proj` does not return the orthogonal projection onto the
plane.  For the plane `x = 1` (unit normal `(1,0,0)`, offset `-1`) and the
query point at the origin, the source computes
`proj = point - (point[0] + dot(point - point[0], n) * n) = (0,0,0)`,
which does not satisfy the plane's implicit equation; the true orthogonal
projection `(1,0,0)` does.  (`perp` carries the spurious `point[0] +`
offset — a copy of `Line.proj`'s pattern — and `proj = point - perp`
inherits the error.) -/
theorem plane_proj_not_on_plane :
    (nullSpace4 exPlaneX1).1 = ![1, 0, 0]
    ∧ (nullSpace4 exPlaneX1).2 = -1
    ∧ planeProj ![1, 0, 0] ![1, 0, 0] ![0, 0, 0] = ![0, 0, 0]
    ∧ planeEval exPlaneX1 (planeProj ![1, 0, 0] ![1, 0, 0] ![0, 0, 0]) ≠ 0
    ∧ planeEval exPlaneX1 ![1, 0, 0] = 0 := by
  have h3 : planeProj ![1, 0, 0] ![1, 0, 0] ![0, 0, 0] = ![0, 0, 0] := by
    funext i
    fin_cases i <;> norm_num [planeProj, planePerp, sub3, dot3]
  refine ⟨?_, ?_, h3, ?_, ?_⟩
  · funext i
    fin_cases i <;> norm_num [nullSpace4, exPlaneX1, cross3, sub3, dot3]
  · norm_num [nullSpace4, exPlaneX1, cross3, sub3, dot3]
  · rw [h3]
    norm_num [planeEval, nullSpace4, exPlaneX1, cross3, sub3, dot3]
  · norm_num [planeEval, nullSpace4, exPlaneX1, cross3, sub3, dot3]

/-- C2: the Line returned by `Plane.intersection` does not lie on the
planes.  For `exPlaneA` and `exPlaneB` the routine eliminates axis `j = 2`
(the smallest-magnitude normalised coefficient) but re-inserts the
eliminated coordinate at position `0` (`np.insert(·, 0, ·)`, lines
163-164) instead of position `j`: it returns the points `(0, 1/4, 1/2)` and
`(1, 2/3, 5/3)`, which violate the planes' implicit equations, while the
correctly assembled point `(1/4, 1/2, 0)` satisfies both. -/
theorem plane_intersection_points_off_plane :
    planeIntersection exPlaneA exPlaneB = some (![0, 1/4, 1/2], ![1, 2/3, 5/3])
    ∧ planeEval exPlaneA ![0, 1/4, 1/2] ≠ 0
    ∧ planeEval exPlaneB ![1, 2/3, 5/3] ≠ 0
    ∧ planeEval exPlaneA ![1/4, 1/2, 0] = 0
    ∧ planeEval exPlaneB ![1/4, 1/2, 0] = 0 := by
  refine ⟨?_, ?_, ?_, ?_, ?_⟩
  · unfold planeIntersection nullSpace4 argminColumn amin2
    norm_num +decide [exPlaneA, exPlaneB, cross3, sub3, dot3]
  · norm_num [planeEval, nullSpace4, exPlaneA, cross3, sub3, dot3]
  · norm_num [planeEval, nullSpace4, exPlaneB, cross3, sub3, dot3]
  · norm_num [planeEval, nullSpace4, exPlaneA, cross3, sub3, dot3]
  · norm_num [planeEval, nullSpace4, exPlaneB, cross3, sub3, dot3]

lemma resolvePoI_get (b : B3) (sm : V3) (i : Fin 3) :
    (resolvePoI b sm).get i = ((b.get i).1 + sm.get i * ((b.get i).2 - (b.get i).1)) := by
  fin_cases i <;> rfl

lemma initSampleMask_get (b : B3) (sm : V3) (i : Fin 3) :
    (initSampleMask b sm).get i
      = if (b.get i).2 - (b.get i).1 = 0 then 0 else sm.get i := by
  fin_cases i <;> rfl

/-- C9: the roll-center rule of the claim cannot execute as claimed — no run
of `Design` completes.  The body frame reads `Target['Vehicle']['CG'][2]`
(a subscript, requiring an array) while the roll-center height assignment
multiplies the entire `CG` entry into the single slot
`RC.Position[2]` (requiring a scalar); whichever shape `CG` has, one of
the two statements raises, so `Design` always ends in an exception
(`(design …).2 = true` for every state and every choice of the abstracted
trigonometric evaluations). -/
theorem design_cg_always_raises (sinEval arctanEval : ℚ → ℚ) (s : DWState) :
    (design sinEval arctanEval s).2 = true := by
  unfold design
  split
  · cases hc : (framesStage sinEval s).target.cg <;> rfl
  · rfl

/-- C1 (amended): for a front axle `Design` sets the tire frame's
longitudinal position to `Wheelbase * (1 - WeightDist[0]/100)` as claimed;
for a rear axle it sets `Wheelbase * (-WeightDist[0])/100`, where
`WeightDist[0]` is the **front** weight percentage (`BaseTesting.py`
declares `WeightDist` as `[%F,%L]`), not the rear axle's weight fraction;
any other axle label raises immediately with no mutation (the spec's
`InvalidConfiguration`). -/
theorem tire_longitudinal_position (sinEval arctanEval : ℚ → ℚ) (s : DWState) :
    (s.target.axle = "Front" →
      (design sinEval arctanEval s).1.tirePos.x
        = s.target.wheelbase * (1 - s.target.weightDist0 / 100))
    ∧ (s.target.axle = "Rear" →
      (design sinEval arctanEval s).1.tirePos.x
        = s.target.wheelbase * (-s.target.weightDist0) / 100)
    ∧ (s.target.axle ≠ "Front" → s.target.axle ≠ "Rear" →
      design sinEval arctanEval s = (s, true)) := by
  have key : (s.target.axle = "Front" ∨ s.target.axle = "Rear") →
      (design sinEval arctanEval s).1.tirePos.x = tirePos0 s.target := by
    intro ha
    rcases hcg : s.target.cg with x | c
    · rw [design_scalar sinEval arctanEval s x ha hcg]
      rfl
    · rw [design_vec sinEval arctanEval s c ha hcg]
      simp [samplingStage]
  refine ⟨?_, ?_, ?_⟩
  · intro hf
    rw [key (Or.inl hf)]
    unfold tirePos0
    rw [hf, if_pos rfl]
  · intro hr
    rw [key (Or.inr hr)]
    unfold tirePos0
    rw [hr]
    rw [if_neg (show ¬"Rear" = "Front" by simp)]
  · intro h1 h2
    exact design_invalid sinEval arctanEval s h1 h2

/-- Witness for `tire_longitudinal_position`: wheelbase 1525 mm, front
weight 50 % — the front tire frame lands at `762.5 = 1525/2` mm. -/
theorem tire_longitudinal_position_witness :
    sInherit.target.axle = "Front"
    ∧ (design oracleOne oracleOne sInherit).1.tirePos.x = 1525 / 2 := by
  refine ⟨rfl, ?_⟩
  have h := (tire_longitudinal_position oracleOne oracleOne sInherit).1 rfl
  rw [h]
  norm_num [sInherit, exTargetFront]

/-- C1 counterexample: a rear-axle target with front weight 40 % (rear
weight fraction `100 - 40 = 60 %`, wheelbase 1000).  The code writes
`1000 * (-40)/100 = -400`; the claim demands
`-(1000 * 60/100) = -600`. -/
theorem tire_longitudinal_rear_counterexample :
    sRear.target.axle = "Rear"
    ∧ (design oracleOne oracleOne sRear).1.tirePos.x = -400
    ∧ -(sRear.target.wheelbase * ((100 - sRear.target.weightDist0) / 100)) = -600
    ∧ (design oracleOne oracleOne sRear).1.tirePos.x
        ≠ -(sRear.target.wheelbase * ((100 - sRear.target.weightDist0) / 100)) := by
  have h2 : (design oracleOne oracleOne sRear).1.tirePos.x = -400 := by
    rw [design_vec oracleOne oracleOne sRear ⟨0, 0, 300⟩ (Or.inr rfl) rfl]
    simp [samplingStage, tirePos0, sRear, sInherit, exTargetRear]
    norm_num
  have h3 : -(sRear.target.wheelbase * ((100 - sRear.target.weightDist0) / 100))
      = (-600 : ℚ) := by
    norm_num [sRear, sInherit, exTargetRear]
  refine ⟨rfl, h2, h3, ?_⟩
  rw [h2, h3]
  norm_num

/-- C3 (amended): re-running `Design` with the same `Target`, `Bound` and
`Sample` reproduces the same frame positions/rotations and hardpoint
positions **provided no bound-inheritance conditional fires in the first
run** (no designated dependent bound row is entirely zero).  When one does
fire, the first run widens `Bound` in place, the second run's guard no
longer fires, and the dependent hardpoint's position is resolved from its
own (inherited) bound row instead of being copied from the sibling — see
the counterexample. -/
theorem design_idempotent_without_inheritance (sinEval arctanEval : ℚ → ℚ) (s : DWState)
    (h1 : s.bound.lar.y ≠ (0, 0)) (h2 : s.bound.uaf.x ≠ (0, 0))
    (h3 : s.bound.uar.x ≠ (0, 0)) (h4 : s.bound.uar.y ≠ (0, 0)) :
    (design sinEval arctanEval (design sinEval arctanEval s).1).1
      = (design sinEval arctanEval s).1 := by
  have h1' : s.bound.lar.y ≠ 0 := h1
  have h2' : s.bound.uaf.x ≠ 0 := h2
  have h3' : s.bound.uar.x ≠ 0 := h3
  have h4' : s.bound.uar.y ≠ 0 := h4
  by_cases ha : s.target.axle = "Front" ∨ s.target.axle = "Rear"
  · rcases hcg : s.target.cg with x | c
    · rw [design_scalar sinEval arctanEval s x ha hcg]
      have ha2 : (framesStage sinEval s).target.axle = s.target.axle := rfl
      rw [design_scalar sinEval arctanEval (framesStage sinEval s) x
        (by rw [ha2]; exact ha) hcg]
      rfl
    · rw [design_vec sinEval arctanEval s c ha hcg]
      set s1 := rulesStage arctanEval (samplingStage (bodyAxleStage c (framesStage sinEval s)))
        with hs1
      have hta : s1.target.axle = s.target.axle := by simp [hs1, samplingStage]
      have htc : s1.target.cg = s.target.cg := by simp [hs1, samplingStage]
      rw [design_vec sinEval arctanEval s1 c (by rw [hta]; exact ha) (by rw [htc]; exact hcg)]
      ext <;>
        simp [hs1, samplingStage, tirePos0, h1', h2', h3', h4']
  · push_neg at ha
    rw [design_invalid sinEval arctanEval s ha.1 ha.2,
      design_invalid sinEval arctanEval s ha.1 ha.2]

/-- Witness for `design_idempotent_without_inheritance` at the concrete
state `sNoInherit`, whose four designated bound rows are all nonzero. -/
theorem design_idempotent_without_inheritance_witness :
    sNoInherit.bound.lar.y ≠ (0, 0) ∧ sNoInherit.bound.uaf.x ≠ (0, 0)
    ∧ sNoInherit.bound.uar.x ≠ (0, 0) ∧ sNoInherit.bound.uar.y ≠ (0, 0)
    ∧ (design oracleOne oracleOne (design oracleOne oracleOne sNoInherit).1).1
        = (design oracleOne oracleOne sNoInherit).1 := by
  have g1 : sNoInherit.bound.lar.y ≠ (0, 0) := by
    simp [sNoInherit, sInherit, exBoundFree, Prod.ext_iff]
  have g2 : sNoInherit.bound.uaf.x ≠ (0, 0) := by
    simp [sNoInherit, sInherit, exBoundFree, Prod.ext_iff]
  have g3 : sNoInherit.bound.uar.x ≠ (0, 0) := by
    simp [sNoInherit, sInherit, exBoundFree, Prod.ext_iff]
  have g4 : sNoInherit.bound.uar.y ≠ (0, 0) := by
    simp [sNoInherit, sInherit, exBoundFree, Prod.ext_iff]
  exact ⟨g1, g2, g3, g4,
    design_idempotent_without_inheritance oracleOne oracleOne sNoInherit g1 g2 g3 g4⟩

/-- C3 counterexample: on `sInherit` (whose `LAR` lateral bound row is all
zero, `LAF` lateral row `[8, 8.7]`, `LAF` lateral sample `1`, `LAR` lateral
sample `0`), the first `Design` run copies `LAF`'s resolved lateral value
`8.7` into `LAR` and widens `LAR`'s bound row in place; the second run's
guard no longer fires and resolves `LAR` laterally to `8 + 0·0.7 = 8` —
the Frame Graph is **not** left in the same state. -/
theorem design_second_run_differs :
    (design oracleOne oracleOne (design oracleOne oracleOne sInherit).1).1.poi.lar.y
      ≠ (design oracleOne oracleOne sInherit).1.poi.lar.y := by
  have e1 : (design oracleOne oracleOne sInherit).1.poi.lar.y = 87/10 := by
    rw [design_vec oracleOne oracleOne sInherit ⟨0, 0, 300⟩ (Or.inl rfl) rfl]
    norm_num [samplingStage, sInherit, exBoundInh, exSample, exTargetFront, exPoiZero,
      zeroV3, Prod.ext_iff]
  have hta : (design oracleOne oracleOne sInherit).1.target.axle = "Front" := by
    rw [design_vec oracleOne oracleOne sInherit ⟨0, 0, 300⟩ (Or.inl rfl) rfl]
    norm_num [samplingStage, sInherit, exTargetFront]
  have hcg : (design oracleOne oracleOne sInherit).1.target.cg = CGVal.vec ⟨0, 0, 300⟩ := by
    rw [design_vec oracleOne oracleOne sInherit ⟨0, 0, 300⟩ (Or.inl rfl) rfl]
    norm_num [samplingStage, sInherit, exTargetFront]
  have hb : (design oracleOne oracleOne sInherit).1.bound.lar.y = (8, 87/10) := by
    rw [design_vec oracleOne oracleOne sInherit ⟨0, 0, 300⟩ (Or.inl rfl) rfl]
    norm_num [samplingStage, sInherit, exBoundInh, Prod.ext_iff]
  have hs : (design oracleOne oracleOne sInherit).1.sample.lar.y = 0 := by
    rw [design_vec oracleOne oracleOne sInherit ⟨0, 0, 300⟩ (Or.inl rfl) rfl]
    norm_num [samplingStage, sInherit, exSample]
  have e2 : (design oracleOne oracleOne
      (design oracleOne oracleOne sInherit).1).1.poi.lar.y = 8 := by
    rw [design_vec oracleOne oracleOne (design oracleOne oracleOne sInherit).1 ⟨0, 0, 300⟩
      (Or.inl hta) hcg]
    have hbne : (design oracleOne oracleOne sInherit).1.bound.lar.y ≠ 0 := by
      rw [hb]; norm_num [Prod.ext_iff]
    simp [samplingStage, hbne, hb, hs]
  rw [e1, e2]
  norm_num

/-- C4 (amended): for a hardpoint axis whose bound row is degenerate
(`boundMin = boundMax`) the resolved position equals `boundMin` for any
supplied sample in `[0,1]` — in fact the `min + sample·(max-min)` formula
makes the sample irrelevant — and the `Init` masking step forces the stored
sample entry for such an axis to `0`.  **Exception** (forced by the
counterexample): on the four inheritance-designated axes this holds only if
the degenerate row is not entirely zero; an all-zero row instead triggers
bound inheritance, which overwrites the position with the sibling's
resolved value. -/
theorem degenerate_bound_resolution (sinEval arctanEval : ℚ → ℚ) (s : DWState) (c : V3)
    (P : HP) (i : Fin 3)
    (ha : s.target.axle = "Front" ∨ s.target.axle = "Rear")
    (hcg : s.target.cg = CGVal.vec c)
    (hdeg : ((s.bound.get P).get i).1 = ((s.bound.get P).get i).2)
    (hs0 : 0 ≤ (s.sample.get P).get i) (hs1 : (s.sample.get P).get i ≤ 1)
    (hninh : inhAxis P i → (s.bound.get P).get i ≠ (0, 0)) :
    ((design sinEval arctanEval s).1.poi.get P).get i = ((s.bound.get P).get i).1
    ∧ (initSampleMask (s.bound.get P) (s.sample.get P)).get i = 0 := by
  constructor
  · rw [design_vec sinEval arctanEval s c ha hcg]
    rw [rulesStage_poi]
    rw [samplingStage_poi_get (bodyAxleStage c (framesStage sinEval s)) P i hninh]
    rw [resolvePoI_get]
    show ((s.bound.get P).get i).1
        + (s.sample.get P).get i * (((s.bound.get P).get i).2 - ((s.bound.get P).get i).1)
      = ((s.bound.get P).get i).1
    linear_combination (-(s.sample.get P).get i) * hdeg
  · have h0 : ((s.bound.get P).get i).2 - ((s.bound.get P).get i).1 = 0 := by
      rw [← hdeg]; ring
    rw [initSampleMask_get, if_pos h0]

/-- Witness for `degenerate_bound_resolution`: `LAF`'s longitudinal row is
`(5, 5)` (degenerate, nonzero) in `sNoInherit`, supplied sample `1`; the
resolved longitudinal position is `5` and the masked sample is `0`. -/
theorem degenerate_bound_resolution_witness :
    ((sNoInherit.bound.get HP.laf).get 0).1 = ((sNoInherit.bound.get HP.laf).get 0).2
    ∧ ((design oracleOne oracleOne sNoInherit).1.poi.get HP.laf).get 0
        = ((sNoInherit.bound.get HP.laf).get 0).1
    ∧ (initSampleMask (sNoInherit.bound.get HP.laf) (sNoInherit.sample.get HP.laf)).get 0
        = 0 := by
  have hdeg : ((sNoInherit.bound.get HP.laf).get 0).1
      = ((sNoInherit.bound.get HP.laf).get 0).2 := by
    simp [sNoInherit, sInherit, exBoundFree]
  have h := degenerate_bound_resolution oracleOne oracleOne sNoInherit ⟨0, 0, 300⟩ HP.laf 0
    (Or.inl rfl) rfl hdeg
    (by simp [sNoInherit, sInherit, exSample])
    (by simp [sNoInherit, sInherit, exSample])
    (fun hx => absurd hx (by decide))
  exact ⟨hdeg, h.1, h.2⟩

/-- C4 counterexample: in `sInherit`, `LAR`'s lateral bound row is `(0, 0)`
— degenerate with `boundMin = 0` — and the supplied lateral sample `0` lies
in `[0,1]`, yet the resolved lateral position of `LAR` after `Design` is
`8.7` (inherited from `LAF`), not `boundMin = 0`: the claim fails on the
inheritance-designated axes. -/
theorem degenerate_bound_inherited_counterexample :
    ((sInherit.bound.get HP.lar).get 1).1 = ((sInherit.bound.get HP.lar).get 1).2
    ∧ 0 ≤ (sInherit.sample.get HP.lar).get 1
    ∧ (sInherit.sample.get HP.lar).get 1 ≤ 1
    ∧ ((design oracleOne oracleOne sInherit).1.poi.get HP.lar).get 1
        ≠ ((sInherit.bound.get HP.lar).get 1).1 := by
  refine ⟨by simp [sInherit, exBoundInh], by simp [sInherit, exSample],
    by simp [sInherit, exSample], ?_⟩
  have e1 : ((design oracleOne oracleOne sInherit).1.poi.get HP.lar).get 1 = 87/10 := by
    rw [design_vec oracleOne oracleOne sInherit ⟨0, 0, 300⟩ (Or.inl rfl) rfl]
    norm_num [samplingStage, sInherit, exBoundInh, exSample, exTargetFront, exPoiZero,
      zeroV3, Prod.ext_iff]
  rw [e1]
  simp [sInherit, exBoundInh]

/-- C8 (amended): a run of `Design` leaves every entry of `Target`
unchanged **except** that it writes the derived `FVSA` entry into
`Target['Linkage']` (line 226) whenever the run reaches the
kinematic-rules step; `Sample` is never written; and `Bound` is modified
only by the bound-inheritance conditionals — any row that changes is one of
the four designated (hardpoint, axis) pairs whose row was entirely zero. -/
theorem design_config_effects (sinEval arctanEval : ℚ → ℚ) (s : DWState) :
    ({ (design sinEval arctanEval s).1.target with fvsa := s.target.fvsa } = s.target)
    ∧ (design sinEval arctanEval s).1.sample = s.sample
    ∧ ∀ (P : HP) (i : Fin 3),
        ((design sinEval arctanEval s).1.bound.get P).get i = (s.bound.get P).get i
        ∨ (inhAxis P i ∧ (s.bound.get P).get i = (0, 0)) := by
  by_cases ha : s.target.axle = "Front" ∨ s.target.axle = "Rear"
  · rcases hcg : s.target.cg with x | c
    · rw [design_scalar sinEval arctanEval s x ha hcg]
      exact ⟨rfl, rfl, fun P i => Or.inl rfl⟩
    · have ht : (design sinEval arctanEval s).1.target
          = { s.target with fvsa := some (1 / arctanEval |s.target.camberGain|) } := by
        rw [design_vec sinEval arctanEval s c ha hcg]
        simp [samplingStage]
      refine ⟨by rw [ht], ?_, ?_⟩
      · rw [design_vec sinEval arctanEval s c ha hcg]
        simp [samplingStage]
      · intro P i
        by_cases hz : (s.bound.get P).get i = (0, 0)
        · by_cases hin : inhAxis P i
          · exact Or.inr ⟨hin, hz⟩
          · left
            rw [design_vec sinEval arctanEval s c ha hcg, rulesStage_bound]
            exact samplingStage_bound_get_of (bodyAxleStage c (framesStage sinEval s)) P i
              (fun hx => absurd hx hin)
        · left
          rw [design_vec sinEval arctanEval s c ha hcg, rulesStage_bound]
          exact samplingStage_bound_get_of (bodyAxleStage c (framesStage sinEval s)) P i
            (fun _ => hz)
  · push_neg at ha
    rw [design_invalid sinEval arctanEval s ha.1 ha.2]
    exact ⟨rfl, rfl, fun P i => Or.inl rfl⟩

/-- C8 counterexample: on `sInherit` (array `CG`, valid axle) `Design`
writes the `FVSA` entry into `Target['Linkage']`, so `Target` is **not**
left unchanged. -/
theorem design_writes_target_counterexample :
    sInherit.target.fvsa = none
    ∧ (design oracleOne oracleOne sInherit).1.target.fvsa ≠ sInherit.target.fvsa := by
  refine ⟨rfl, ?_⟩
  rw [design_vec oracleOne oracleOne sInherit ⟨0, 0, 300⟩ (Or.inl rfl) rfl]
  simp [samplingStage, sInherit, exTargetFront]
